import Mathlib

/-!
POS cart engine (client/src/components/POS/POSSystem.js)

A shallow embedding of the cart, search and payment handlers of the `POSSystem`
component, of the recent-sales list of the `Dashboard` component and of the
route guard of `App.js`. The Sale Finalizer, which is server code, is modelled
from the specification.

* JavaScript numbers that carry money (`price`, `total`, `subtotal`, ...) are
  embedded as rationals `ℚ`; quantities and stock levels are integers `ℤ`. The
  handlers of the first sections add and multiply exactly, which serves every
  property that does not depend on the value of a sum or product; the handlers
  of namespace `IEEE` round every such result to the nearest double, as
  JavaScript does, and carry the properties about the amounts themselves.
* React state is an explicit record `POSState`; every handler is a function from
  the state of the render it closes over to the next state, together with the
  list of side effects (toasts) it performed.
* A handler that throws (reading a property of `undefined`) returns
  `Except.error`; no `setState` call has been made at that point.
* The outcome of an HTTP request is an argument of the handler that awaits it:
  `Except.ok` for a resolved promise, `Except.error` for a rejected one.
-/

namespace POS

/-! ## Data model -/

/-- A product as delivered by `GET /api/products`. -/
structure Product where
  id : ℕ
  name : String
  price : ℚ
  stock_quantity : ℤ
  barcode : Option String
  category : String
deriving DecidableEq

/-- A cart line, the object literal built in `addToCart`. -/
structure CartItem where
  product_id : ℕ
  name : String
  price : ℚ
  quantity : ℤ
  total : ℚ
  barcode : Option String
deriving DecidableEq

/-- A customer as delivered by `GET /api/customers`. -/
structure Customer where
  id : ℕ
  name : String
  phone : Option String
deriving DecidableEq

/-- The `useState` cells of the `POSSystem` component. -/
structure POSState where
  products : List Product
  customers : List Customer
  cart : List CartItem
  selectedCustomer : Option Customer
  searchTerm : String
  selectedCategory : String
  paymentMethod : String
  processingPayment : Bool
deriving DecidableEq

/-- One entry of `items` in the body posted to `/api/sales`. -/
structure SaleItem where
  product_id : ℕ
  quantity : ℤ
  unit_price : ℚ
deriving DecidableEq

/-- The `saleData` object posted to `/api/sales`. `customer_id` is `undefined`,
hence absent from the JSON body, when no customer is selected. -/
structure SaleData where
  customer_id : Option ℕ
  items : List SaleItem
  payment_method : String
  tax_amount : ℚ
deriving DecidableEq

/-- The fields of `response.data` that `processPayment` reads. -/
structure SaleResponse where
  sale_id : ℕ
  sale_number : String
  total : ℚ
deriving DecidableEq

/-- The payload of a `sale_completed` event. -/
structure SaleCompleted where
  sale_id : ℕ
  sale_number : String
  total : ℚ
deriving DecidableEq

/-- A rejected promise of axios; `responseError` is `error.response?.data?.error`,
present when the server answered with an error body. -/
structure HttpError where
  responseError : Option String
deriving DecidableEq

/-- Side effects a handler performs besides `setState`, in program order. -/
inductive Effect where
  | toastError (msg : String)
  | toastSuccess (msg : String)
  | httpPost (url : String) (body : SaleData)
  | httpGet (url : String)
  | emit (event : String) (data : SaleCompleted)
  | consoleLog (msg : String)
  | alert (msg : String)
deriving DecidableEq

/-- Errors thrown by the JavaScript runtime. -/
inductive JSError where
  | typeError (msg : String)
deriving DecidableEq

/-- The object returned by `calculateTotals`. -/
structure Totals where
  subtotal : ℚ
  taxAmount : ℚ
  total : ℚ
deriving DecidableEq

/-- The state of `useState(...)` at mount: `cart = []`, no customer, `'cash'`. -/
def initialState : POSState :=
  { products := [], customers := [], cart := [], selectedCustomer := none,
    searchTerm := "", selectedCategory := "", paymentMethod := "cash",
    processingPayment := false }

/-- The constant `const [taxRate] = useState(0.08)`; it has no setter. -/
def taxRate : ℚ := 8 / 100

/-! ## Handlers -/

/-- `addToCart(product)`, POSSystem.js lines 74-97. -/
def addToCart (s : POSState) (product : Product) : POSState × List Effect :=
  match s.cart.find? (fun item => decide (item.product_id = product.id)) with
  | some existingItem =>
    if existingItem.quantity ≥ product.stock_quantity then
      (s, [Effect.toastError "Insufficient stock"])
    else
      ({ s with cart := s.cart.map (fun item =>
          if item.product_id = product.id then
            { item with quantity := item.quantity + 1,
                        total := ((item.quantity + 1 : ℤ) : ℚ) * item.price }
          else item) }, [])
  | none =>
    ({ s with cart := s.cart ++ [{ product_id := product.id,
                                   name := product.name,
                                   price := product.price,
                                   quantity := 1,
                                   total := product.price,
                                   barcode := product.barcode }] }, [])

/-- `removeFromCart(productId)`, POSSystem.js lines 118-120. -/
def removeFromCart (s : POSState) (productId : ℕ) : POSState :=
  { s with cart := s.cart.filter (fun item => decide (item.product_id ≠ productId)) }

/-- `updateCartQuantity(productId, newQuantity)`, POSSystem.js lines 99-116.
`products.find` yields `undefined` for an unknown id and reading
`stock_quantity` of it throws a `TypeError`. -/
def updateCartQuantity (s : POSState) (productId : ℕ) (newQuantity : ℤ) :
    Except JSError (POSState × List Effect) :=
  if newQuantity ≤ 0 then
    .ok (removeFromCart s productId, [])
  else
    match s.products.find? (fun p => decide (p.id = productId)) with
    | none => .error (JSError.typeError "Cannot read properties of undefined")
    | some product =>
      if newQuantity > product.stock_quantity then
        .ok (s, [Effect.toastError "Insufficient stock"])
      else
        .ok ({ s with cart := s.cart.map (fun item =>
            if item.product_id = productId then
              { item with quantity := newQuantity,
                          total := (newQuantity : ℚ) * item.price }
            else item) }, [])

/-- `clearCart()`, POSSystem.js lines 122-125. -/
def clearCart (s : POSState) : POSState :=
  { s with cart := [], selectedCustomer := none }

/-- `calculateTotals()`, POSSystem.js lines 127-133. -/
def calculateTotals (s : POSState) : Totals :=
  let subtotal := s.cart.foldl (fun sum item => sum + item.total) 0
  let taxAmount := subtotal * taxRate
  let total := subtotal + taxAmount
  { subtotal := subtotal, taxAmount := taxAmount, total := total }

/-! ## Product search -/

/-- `text.includes(search)` of JavaScript: `search` occurs in `text` as a
contiguous run of characters. -/
def includes (text search : String) : Bool :=
  decide (search.data <:+: text.data)

/-- `filteredProducts`, POSSystem.js lines 67-72. `toLowerCase` is
`String.prototype.toLowerCase`, a function of the JavaScript runtime.
`product.barcode?.includes(searchTerm)` is `undefined`, hence falsy, for a
product without barcode, and `!selectedCategory` holds for the empty string. -/
def filteredProducts (toLowerCase : String → String) (s : POSState) : List Product :=
  s.products.filter (fun product =>
    let matchesSearch :=
      includes (toLowerCase product.name) (toLowerCase s.searchTerm)
        || (match product.barcode with
            | some barcode => includes barcode s.searchTerm
            | none => false)
    let matchesCategory :=
      decide (s.selectedCategory = "") || decide (product.category = s.selectedCategory)
    matchesSearch && matchesCategory)

/-! ## Payment -/

/-- `emitEvent(event, data)` of SocketContext.js lines 49-53: emits only when
the socket exists. -/
def emitEvent (socket : Bool) (event : String) (data : SaleCompleted) : List Effect :=
  if socket then [Effect.emit event data] else []

/-- `loadProducts()`, POSSystem.js lines 40-47, given the outcome of
`GET /api/products`. -/
def loadProducts (s : POSState) (response : Except HttpError (List Product)) :
    POSState × List Effect :=
  match response with
  | .ok products => ({ s with products := products }, [Effect.httpGet "/api/products"])
  | .error _ =>
    (s, [Effect.httpGet "/api/products", Effect.toastError "Failed to load products"])

/-- `printReceipt(saleNumber)`, POSSystem.js lines 184-190. -/
def printReceipt (saleNumber : String) : List Effect :=
  [Effect.consoleLog ("Printing receipt for sale: " ++ saleNumber),
   Effect.alert ("Receipt would be printed for sale: " ++ saleNumber
     ++ "\n\nIn a real system, this would connect to a receipt printer.")]

/-- The object literal `saleData`, POSSystem.js lines 144-155. -/
def saleData (s : POSState) : SaleData :=
  let total := (calculateTotals s).total
  { customer_id := s.selectedCustomer.map (fun customer => customer.id),
    items := s.cart.map (fun item =>
      { product_id := item.product_id, quantity := item.quantity, unit_price := item.price }),
    payment_method := s.paymentMethod,
    tax_amount := total - s.cart.foldl (fun sum item => sum + item.total) 0 }

/-- The message of the `catch` block:
`error.response?.data?.error || 'Payment processing failed'`. -/
def paymentErrorMessage (error : HttpError) : String :=
  match error.responseError with
  | some msg => if msg = "" then "Payment processing failed" else msg
  | none => "Payment processing failed"

/-- `processPayment()`, POSSystem.js lines 135-182, given whether the socket
exists, the outcome of `POST /api/sales` and the outcome of the
`GET /api/products` issued by the `loadProducts()` call after a sale. The
result is the component state once every setter has been applied. -/
def processPayment (s : POSState) (socket : Bool)
    (post : Except HttpError SaleResponse)
    (products : Except HttpError (List Product)) : POSState × List Effect :=
  if s.cart.length = 0 then
    (s, [Effect.toastError "Cart is empty"])
  else
    let s1 := { s with processingPayment := true }
    match post with
    | .ok response =>
      let s2 := clearCart s1
      let loaded := loadProducts s2 products
      ({ loaded.1 with processingPayment := false },
        [Effect.httpPost "/api/sales" (saleData s)]
          ++ emitEvent socket "sale_completed"
              { sale_id := response.sale_id, sale_number := response.sale_number,
                total := response.total }
          ++ [Effect.toastSuccess ("Sale completed! Receipt: " ++ response.sale_number)]
          ++ printReceipt response.sale_number
          ++ loaded.2)
    | .error error =>
      ({ s1 with processingPayment := false },
        [Effect.httpPost "/api/sales" (saleData s),
         Effect.toastError (paymentErrorMessage error)])

/-! ## Dashboard read model (client/src/components/Dashboard/Dashboard.js) -/

/-- The state update of `handleNewSale(saleData)`, Dashboard.js lines 80-85:
`setRealTimeSales(prev => [saleData, ...prev.slice(0, 4)])`. The call of
`loadDashboardData()` that follows re-reads the server statistics and does not
touch `realTimeSales`. -/
def handleNewSale (realTimeSales : List SaleCompleted) (saleData : SaleCompleted) :
    List SaleCompleted :=
  saleData :: realTimeSales.take 4

/-- The list `realTimeSales` after the dashboard, mounted with `useState([])`,
has handled the `sale_completed` events `received`, oldest first. -/
def realTimeSalesAfter (received : List SaleCompleted) : List SaleCompleted :=
  received.foldl handleNewSale []

/-! ## Route guard (client/src/App.js) -/

/-- The `user` object of the auth context; `role` is `undefined` for the object
parsed from an empty `localStorage` entry. -/
structure User where
  id : ℕ
  role : Option String
deriving DecidableEq

/-- What `ProtectedRoute` returns. -/
inductive Rendered where
  | loadingSpinner
  | navigate (path : String)
  | children
deriving DecidableEq

/-- Truthiness of the optional string prop `requiredRole`: given and not empty. -/
def roleGiven (requiredRole : Option String) : Bool :=
  match requiredRole with
  | none => false
  | some role => decide (role ≠ "")

/-- `ProtectedRoute({ children, requiredRole })`, App.js lines 22-38, as a
function of the `loading` and `user` cells of the auth context. -/
def ProtectedRoute (loading : Bool) (user : Option User) (requiredRole : Option String) :
    Rendered :=
  if loading then
    Rendered.loadingSpinner
  else
    match user with
    | none => Rendered.navigate "/login"
    | some u =>
      if roleGiven requiredRole && decide (u.role ≠ requiredRole)
          && decide (u.role ≠ some "admin") then
        Rendered.navigate "/dashboard"
      else
        Rendered.children

/-! ## Sequences of cart operations -/

/-- The cart handlers reachable from the user interface. -/
inductive CartOp where
  | add (product : Product)
  | update (productId : ℕ) (newQuantity : ℤ)
  | remove (productId : ℕ)
  | clear
deriving DecidableEq

/-- The component state after a handler has run. A handler that throws has
called no setter, so the state is the one before. -/
def applyOp (s : POSState) : CartOp → POSState
  | .add product => (addToCart s product).1
  | .update productId newQuantity =>
    match updateCartQuantity s productId newQuantity with
    | .ok r => r.1
    | .error _ => s
  | .remove productId => removeFromCart s productId
  | .clear => clearCart s

/-- States reachable from an empty cart: any interleaving of cart handlers,
with the products snapshot free to be replaced (`loadProducts`) in between. -/
inductive Reachable : POSState → Prop where
  | init (s : POSState) (h : s.cart = []) : Reachable s
  | step (s : POSState) (op : CartOp) (h : Reachable s) : Reachable (applyOp s op)
  | setProducts (s : POSState) (ps : List Product) (h : Reachable s) :
      Reachable { s with products := ps }

/-- Rounding to cents, half away from zero: the `round` of the specification. -/
def roundCents (x : ℚ) : ℚ := (round (x * 100) : ℤ) / 100

/-! ## Sale Finalizer (server side, specification section 4.2) -/

/-- Modelled from the spec: a committed Sale of section 3 (sale number,
optional customer, committed lines with frozen unit prices, subtotal, tax,
total, payment method). The server that creates it is not part of the client
sources. -/
structure Sale where
  sale_number : ℕ
  customer_id : Option ℕ
  items : List SaleItem
  subtotal : ℚ
  tax_amount : ℚ
  total : ℚ
  payment_method : String
deriving DecidableEq

/-- Modelled from the spec: the failures of `finalizeSale` named in section 7;
`insufficientStock` identifies the offending product. -/
inductive FinalizeError where
  | insufficientStock (product_id : ℕ)
  | validationError
deriving DecidableEq

/-- Modelled from the spec: the authoritative store behind the Sale Finalizer,
the current stock of every product and the append-only list of committed
sales. -/
structure ServerState where
  stock : ℕ → ℤ
  sales : List Sale

/-- Modelled from the spec: steps 1 and 2 of section 4.2, the first line whose
requested quantity exceeds the authoritative stock of its product. -/
def offendingLine (stock : ℕ → ℤ) (items : List SaleItem) : Option SaleItem :=
  items.find? (fun line => decide (line.quantity > stock line.product_id))

/-- Modelled from the spec: step 3 of section 4.2, each product's stock
decremented by its requested quantity. -/
def decrementStock (stock : ℕ → ℤ) (items : List SaleItem) : ℕ → ℤ :=
  items.foldl
    (fun current line id =>
      if id = line.product_id then current id - line.quantity else current id)
    stock

/-- Modelled from the spec: the Sale record persisted in step 3 of section 4.2,
with frozen unit prices, subtotal, tax rounded to cents, total and a sale
number distinct from those of the sales committed before. -/
def saleRecord (st : ServerState) (request : SaleData) : Sale :=
  let subtotal := (request.items.map
    (fun line => (line.quantity : ℚ) * line.unit_price)).sum
  let tax := roundCents (subtotal * taxRate)
  { sale_number := st.sales.length + 1,
    customer_id := request.customer_id,
    items := request.items,
    subtotal := subtotal,
    tax_amount := tax,
    total := subtotal + tax,
    payment_method := request.payment_method }

/-- Modelled from the spec: `finalizeSale` of section 4.2 as the single atomic
step the specification demands. A malformed payload (no item, or a
non-positive quantity) is a `ValidationError`; a line above the authoritative
stock aborts with `InsufficientStock` and leaves the store untouched; otherwise
the stock is decremented and one Sale with a fresh sale number is appended. -/
def finalizeSale (st : ServerState) (request : SaleData) :
    ServerState × Except FinalizeError Sale :=
  if request.items.isEmpty || request.items.any (fun line => decide (line.quantity ≤ 0)) then
    (st, .error FinalizeError.validationError)
  else
    match offendingLine st.stock request.items with
    | some line => (st, .error (FinalizeError.insufficientStock line.product_id))
    | none =>
      ({ stock := decrementStock st.stock request.items,
         sales := st.sales ++ [saleRecord st request] },
        .ok (saleRecord st request))

/-- Modelled from the spec: concurrent finalize calls are serialized by the
store (section 5); they take effect one after the other, in the order given,
each as one atomic `finalizeSale`. The result lists the outcome of each call. -/
def finalizeSerialized (st : ServerState) (calls : List SaleData) :
    ServerState × List (Except FinalizeError Sale) :=
  calls.foldl
    (fun acc call => ((finalizeSale acc.1 call).1, acc.2 ++ [(finalizeSale acc.1 call).2]))
    (st, [])

/-! ## Arithmetic of JavaScript numbers

A JavaScript number is an IEEE 754 binary64 value. A finite one is embedded as
the rational it denotes, and `+`, `-`, `*` are the exact operation followed by
rounding to the nearest double. Infinity (a result of magnitude `2^1024` or
more) and NaN have no counterpart here. -/

/-- Rounding to the nearest integer, a tie going to the even neighbour. -/
def roundHalfEven (m : ℚ) : ℤ :=
  if m - (⌊m⌋ : ℚ) < 1 / 2 then ⌊m⌋
  else if 1 / 2 < m - (⌊m⌋ : ℚ) then ⌊m⌋ + 1
  else if ⌊m⌋ % 2 = 0 then ⌊m⌋ else ⌊m⌋ + 1

/-- The exponent of the spacing of the doubles around `x`: 53 significant bits
for a normal value, the fixed spacing `2^-1074` below `2^-1022`. -/
def ulpExponent (x : ℚ) : ℤ := max (Int.log 2 |x|) (-1022) - 52

/-- The double nearest to `x` (round to nearest, ties to even). -/
def toDouble (x : ℚ) : ℚ :=
  if x = 0 then 0
  else (roundHalfEven (x / (2 : ℚ) ^ ulpExponent x) : ℚ) * (2 : ℚ) ^ ulpExponent x

/-- The operator `a + b` on JavaScript numbers. -/
def jsAdd (a b : ℚ) : ℚ := toDouble (a + b)

/-- The operator `a - b` on JavaScript numbers. -/
def jsSub (a b : ℚ) : ℚ := toDouble (a - b)

/-- The operator `a * b` on JavaScript numbers. -/
def jsMul (a b : ℚ) : ℚ := toDouble (a * b)

/-! ## Handlers that compute money, in double arithmetic

The same source functions as above, with every sum, difference and product of
money evaluated as JavaScript evaluates it. Quantities are integers, which are
doubles, and `quantity + 1` is exact. -/

namespace IEEE

/-- The constant `const [taxRate] = useState(0.08)`: the double written `0.08`. -/
def taxRate : ℚ := toDouble (8 / 100)

/-- `addToCart(product)`, POSSystem.js lines 74-97. -/
def addToCart (s : POSState) (product : Product) : POSState × List Effect :=
  match s.cart.find? (fun item => decide (item.product_id = product.id)) with
  | some existingItem =>
    if existingItem.quantity ≥ product.stock_quantity then
      (s, [Effect.toastError "Insufficient stock"])
    else
      ({ s with cart := s.cart.map (fun item =>
          if item.product_id = product.id then
            { item with quantity := item.quantity + 1,
                        total := jsMul ((item.quantity + 1 : ℤ) : ℚ) item.price }
          else item) }, [])
  | none =>
    ({ s with cart := s.cart ++ [{ product_id := product.id,
                                   name := product.name,
                                   price := product.price,
                                   quantity := 1,
                                   total := product.price,
                                   barcode := product.barcode }] }, [])

/-- `updateCartQuantity(productId, newQuantity)`, POSSystem.js lines 99-116. -/
def updateCartQuantity (s : POSState) (productId : ℕ) (newQuantity : ℤ) :
    Except JSError (POSState × List Effect) :=
  if newQuantity ≤ 0 then
    .ok (removeFromCart s productId, [])
  else
    match s.products.find? (fun p => decide (p.id = productId)) with
    | none => .error (JSError.typeError "Cannot read properties of undefined")
    | some product =>
      if newQuantity > product.stock_quantity then
        .ok (s, [Effect.toastError "Insufficient stock"])
      else
        .ok ({ s with cart := s.cart.map (fun item =>
            if item.product_id = productId then
              { item with quantity := newQuantity,
                          total := jsMul (newQuantity : ℚ) item.price }
            else item) }, [])

/-- `calculateTotals()`, POSSystem.js lines 127-133. -/
def calculateTotals (s : POSState) : Totals :=
  let subtotal := s.cart.foldl (fun sum item => jsAdd sum item.total) 0
  let taxAmount := jsMul subtotal taxRate
  let total := jsAdd subtotal taxAmount
  { subtotal := subtotal, taxAmount := taxAmount, total := total }

/-- The object literal `saleData`, POSSystem.js lines 144-155. -/
def saleData (s : POSState) : SaleData :=
  let total := (calculateTotals s).total
  { customer_id := s.selectedCustomer.map (fun customer => customer.id),
    items := s.cart.map (fun item =>
      { product_id := item.product_id, quantity := item.quantity, unit_price := item.price }),
    payment_method := s.paymentMethod,
    tax_amount := jsSub total (s.cart.foldl (fun sum item => jsAdd sum item.total) 0) }

/-- `processPayment()`, POSSystem.js lines 135-182, with the arguments of
`POS.processPayment`. -/
def processPayment (s : POSState) (socket : Bool)
    (post : Except HttpError SaleResponse)
    (products : Except HttpError (List Product)) : POSState × List Effect :=
  if s.cart.length = 0 then
    (s, [Effect.toastError "Cart is empty"])
  else
    let s1 := { s with processingPayment := true }
    match post with
    | .ok response =>
      let s2 := clearCart s1
      let loaded := loadProducts s2 products
      ({ loaded.1 with processingPayment := false },
        [Effect.httpPost "/api/sales" (saleData s)]
          ++ emitEvent socket "sale_completed"
              { sale_id := response.sale_id, sale_number := response.sale_number,
                total := response.total }
          ++ [Effect.toastSuccess ("Sale completed! Receipt: " ++ response.sale_number)]
          ++ printReceipt response.sale_number
          ++ loaded.2)
    | .error error =>
      ({ s1 with processingPayment := false },
        [Effect.httpPost "/api/sales" (saleData s),
         Effect.toastError (paymentErrorMessage error)])

/-- The component state after a handler has run; a handler that throws has
called no setter. -/
def applyOp (s : POSState) : CartOp → POSState
  | .add product => (addToCart s product).1
  | .update productId newQuantity =>
    match updateCartQuantity s productId newQuantity with
    | .ok r => r.1
    | .error _ => s
  | .remove productId => removeFromCart s productId
  | .clear => clearCart s

/-- States reachable from an empty cart by the cart handlers, the products
snapshot free to be replaced in between. The price of a product handed to
`addToCart` is a JavaScript number, hence a double. -/
inductive Reachable : POSState → Prop where
  | init (s : POSState) (h : s.cart = []) : Reachable s
  | add (s : POSState) (product : Product) (hprice : toDouble product.price = product.price)
      (h : Reachable s) : Reachable (applyOp s (.add product))
  | update (s : POSState) (productId : ℕ) (newQuantity : ℤ) (h : Reachable s) :
      Reachable (applyOp s (.update productId newQuantity))
  | remove (s : POSState) (productId : ℕ) (h : Reachable s) :
      Reachable (applyOp s (.remove productId))
  | clear (s : POSState) (h : Reachable s) : Reachable (applyOp s .clear)
  | setProducts (s : POSState) (ps : List Product) (h : Reachable s) :
      Reachable { s with products := ps }

end IEEE

/-- The cart lines with their totals blanked: what the exact and the double
version of a handler agree on. -/
def withoutTotals (cart : List CartItem) : List CartItem :=
  cart.map (fun item => { item with total := 0 })

/-! ## Cart invariants -/

/-- Every line of the cart has as total the double product of its quantity and
its price. -/
def LinesRounded (cart : List CartItem) : Prop :=
  ∀ item ∈ cart, item.total = jsMul (item.quantity : ℚ) item.price

/-- Every line of the cart has a quantity of at least 1. -/
def QuantitiesPositive (cart : List CartItem) : Prop :=
  ∀ item ∈ cart, 1 ≤ item.quantity

/-! ## Fixtures from the specification scenarios -/

/-- The line of the tax scenario: price 9.99, quantity 2, total 19.98. -/
def scenarioLine : CartItem :=
  { product_id := 1, name := "Widget", price := 999 / 100, quantity := 2,
    total := 1998 / 100, barcode := none }

/-- The component state whose cart holds exactly `scenarioLine`. -/
def scenarioState : POSState := { initialState with cart := [scenarioLine] }

/-- The product behind `scenarioLine`, with three units in stock. -/
def widget : Product :=
  { id := 1, name := "Widget", price := 999 / 100, stock_quantity := 3,
    barcode := none, category := "tools" }

/-- A product with no unit in stock. -/
def soldOut : Product :=
  { id := 7, name := "Gadget", price := 5, stock_quantity := 0,
    barcode := none, category := "tools" }

/-- The snapshot of the stock scenario: one product with three units. -/
def stockState : POSState := { initialState with products := [widget] }

/-- The stock scenario after three `addToCart(widget)` calls. -/
def stockStateFull : POSState :=
  (addToCart (addToCart (addToCart stockState widget).1 widget).1 widget).1

/-- The stock scenario after one `addToCart(widget)` call. -/
def stockStateOne : POSState := (addToCart stockState widget).1

/-- The line `addToCart` inserts for a product not yet in the cart. -/
def freshLine (product : Product) : CartItem :=
  { product_id := product.id, name := product.name, price := product.price,
    quantity := 1, total := product.price, barcode := product.barcode }

/-- The line `cart.find` returns for a product id, if any. -/
def findLine (cart : List CartItem) (productId : ℕ) : Option CartItem :=
  cart.find? (fun item => decide (item.product_id = productId))

/-- The widget offered at another price. -/
def repricedWidget : Product := { widget with price := 20 }

/-- The widget line after a second `addToCart`, priced as at insertion. -/
def widgetLineTwo : CartItem :=
  { freshLine widget with quantity := 2, total := ((2 : ℤ) : ℚ) * (999 / 100) }

/-- A customer to select. -/
def alice : Customer := { id := 42, name := "Alice", phone := none }

/-- The tax scenario with a customer selected. -/
def checkoutState : POSState := { scenarioState with selectedCustomer := some alice }

/-- A server answer whose total differs from the cart's own total. -/
def serverAnswer : SaleResponse := { sale_id := 10, sale_number := "S-0010", total := 25 }

/-- The event the dashboard receives for `serverAnswer`. -/
def answerEvent : SaleCompleted := { sale_id := 10, sale_number := "S-0010", total := 25 }

/-- Lower-casing of the letters A to Z, character by character. -/
def asciiLower (text : String) : String :=
  String.mk (text.data.map Char.toLower)

/-- A cashier. -/
def cashier : User := { id := 3, role := some "cashier" }

/-- A store holding one unit of product 1 and no committed sale. -/
def lastUnitStore : ServerState :=
  { stock := fun id => if id = 1 then 1 else 0, sales := [] }

/-- A request for one unit of product 1, paid in cash. -/
def cashRequest : SaleData :=
  { customer_id := none,
    items := [{ product_id := 1, quantity := 1, unit_price := 999 / 100 }],
    payment_method := "cash", tax_amount := 0 }

/-- A request for one unit of product 1, paid by card. -/
def cardRequest : SaleData :=
  { customer_id := some 42,
    items := [{ product_id := 1, quantity := 1, unit_price := 999 / 100 }],
    payment_method := "card", tax_amount := 0 }

/-- The line of the tax scenario as JavaScript holds it: the doubles written
`9.99` and `19.98`, quantity 2. -/
def doubleScenarioLine : CartItem :=
  { product_id := 1, name := "Widget", price := 5623870034678907 / 562949953421312,
    quantity := 2, total := 5623870034678907 / 281474976710656, barcode := none }

/-- The component state whose cart holds exactly `doubleScenarioLine`. -/
def doubleScenarioState : POSState := { initialState with cart := [doubleScenarioLine] }

/-- A product priced at the double written `0.1`, five units in stock. -/
def dime : Product :=
  { id := 2, name := "Dime", price := 3602879701896397 / 36028797018963968,
    stock_quantity := 5, barcode := none, category := "coins" }

/-- The line for `dime` after three `addToCart` calls: its total is the double
printed as `0.30000000000000004`. -/
def dimeLineThree : CartItem :=
  { product_id := 2, name := "Dime", price := 3602879701896397 / 36028797018963968,
    quantity := 3, total := 1351079888211149 / 4503599627370496, barcode := none }

/-- The mount state after three `addToCart(dime)` calls. -/
def dimeStateThree : POSState :=
  IEEE.applyOp (IEEE.applyOp (IEEE.applyOp initialState (.add dime)) (.add dime)) (.add dime)

/-! ## Auxiliary lemmas -/

theorem foldl_total (cart : List CartItem) (a : ℚ) :
    cart.foldl (fun sum item => sum + item.total) a
      = a + (cart.map (fun item => item.total)).sum := by
  induction cart generalizing a with
  | nil => simp
  | cons item rest ih => simp [List.foldl_cons, ih, add_assoc]

/-! ## Evaluating double arithmetic -/

theorem roundHalfEven_of_near (m : ℚ) (n : ℤ) (h1 : (n : ℚ) - 1 / 2 < m)
    (h2 : m < (n : ℚ) + 1 / 2) : roundHalfEven m = n := by
  by_cases hge : (n : ℚ) ≤ m
  · have hfloor : ⌊m⌋ = n := by
      rw [Int.floor_eq_iff]
      constructor
      · exact hge
      · linarith
    have hr : m - (n : ℚ) < 1 / 2 := by linarith
    rw [roundHalfEven, hfloor, if_pos hr]
  · have hlt : m < (n : ℚ) := lt_of_not_ge hge
    have hfloor : ⌊m⌋ = n - 1 := by
      rw [Int.floor_eq_iff]
      push_cast
      constructor <;> linarith
    have hr1 : ¬ m - ((n - 1 : ℤ) : ℚ) < 1 / 2 := by push_cast; linarith
    have hr2 : 1 / 2 < m - ((n - 1 : ℤ) : ℚ) := by push_cast; linarith
    rw [roundHalfEven, hfloor, if_neg hr1, if_pos hr2]
    omega

theorem roundHalfEven_tie_odd (m : ℚ) (k : ℤ) (hm : m = (k : ℚ) + 1 / 2)
    (hodd : k % 2 = 1) : roundHalfEven m = k + 1 := by
  have hfloor : ⌊m⌋ = k := by
    rw [Int.floor_eq_iff]
    constructor <;> linarith
  have hr1 : ¬ m - (k : ℚ) < 1 / 2 := by linarith
  have hr2 : ¬ 1 / 2 < m - (k : ℚ) := by linarith
  have hne : ¬ k % 2 = 0 := by omega
  rw [roundHalfEven, hfloor, if_neg hr1, if_neg hr2, if_neg hne]

theorem ulpExponent_eq (x : ℚ) (e : ℤ) (hpos : 0 < x) (he : -1022 ≤ e)
    (hlo : (2 : ℚ) ^ e ≤ x) (hhi : x < (2 : ℚ) ^ (e + 1)) : ulpExponent x = e - 52 := by
  have hlog : Int.log 2 |x| = e := by
    rw [abs_of_pos hpos]
    have h1 : e ≤ Int.log 2 x :=
      (Int.zpow_le_iff_le_log (by norm_num) hpos).mp (by exact_mod_cast hlo)
    have h2 : Int.log 2 x < e + 1 :=
      (Int.lt_zpow_iff_log_lt (by norm_num) hpos).mp (by exact_mod_cast hhi)
    omega
  unfold ulpExponent
  rw [hlog, max_eq_left he]

theorem toDouble_eq (x : ℚ) (e n : ℤ) (hpos : 0 < x) (he : -1022 ≤ e)
    (hlo : (2 : ℚ) ^ e ≤ x) (hhi : x < (2 : ℚ) ^ (e + 1))
    (h1 : ((n : ℚ) - 1 / 2) * (2 : ℚ) ^ (e - 52) < x)
    (h2 : x < ((n : ℚ) + 1 / 2) * (2 : ℚ) ^ (e - 52)) :
    toDouble x = (n : ℚ) * (2 : ℚ) ^ (e - 52) := by
  have hu : (0 : ℚ) < (2 : ℚ) ^ (e - 52) := zpow_pos (by norm_num) _
  unfold toDouble
  rw [if_neg (ne_of_gt hpos), ulpExponent_eq x e hpos he hlo hhi,
    roundHalfEven_of_near (x / (2 : ℚ) ^ (e - 52)) n]
  · rw [lt_div_iff₀ hu]; exact h1
  · rw [div_lt_iff₀ hu]; exact h2

theorem toDouble_eq_tie_odd (x : ℚ) (e k : ℤ) (hpos : 0 < x) (he : -1022 ≤ e)
    (hlo : (2 : ℚ) ^ e ≤ x) (hhi : x < (2 : ℚ) ^ (e + 1))
    (htie : x = ((k : ℚ) + 1 / 2) * (2 : ℚ) ^ (e - 52)) (hodd : k % 2 = 1) :
    toDouble x = ((k + 1 : ℤ) : ℚ) * (2 : ℚ) ^ (e - 52) := by
  have hu : (0 : ℚ) < (2 : ℚ) ^ (e - 52) := zpow_pos (by norm_num) _
  unfold toDouble
  rw [if_neg (ne_of_gt hpos), ulpExponent_eq x e hpos he hlo hhi,
    roundHalfEven_tie_odd (x / (2 : ℚ) ^ (e - 52)) k _ hodd]
  rw [htie, mul_div_assoc, div_self (ne_of_gt hu), mul_one]

theorem toDouble_9_99 :
    toDouble (999 / 100) = 5623870034678907 / 562949953421312 := by
  have h := toDouble_eq (999 / 100) (3) 5623870034678907
    (by norm_num) (by norm_num) (by norm_num) (by norm_num) (by norm_num) (by norm_num)
  rw [h]; norm_num

theorem toDouble_19_98 :
    toDouble (1998 / 100) = 5623870034678907 / 281474976710656 := by
  have h := toDouble_eq (1998 / 100) (4) 5623870034678907
    (by norm_num) (by norm_num) (by norm_num) (by norm_num) (by norm_num) (by norm_num)
  rw [h]; norm_num

theorem toDouble_0_08 :
    toDouble (8 / 100) = 5764607523034235 / 72057594037927936 := by
  have h := toDouble_eq (8 / 100) (-4) 5764607523034235
    (by norm_num) (by norm_num) (by norm_num) (by norm_num) (by norm_num) (by norm_num)
  rw [h]; norm_num

theorem toDouble_subtotal :
    toDouble (0 + 5623870034678907 / 281474976710656) = 5623870034678907 / 281474976710656 := by
  have h := toDouble_eq (0 + 5623870034678907 / 281474976710656) (4) 5623870034678907
    (by norm_num) (by norm_num) (by norm_num) (by norm_num) (by norm_num) (by norm_num)
  rw [h]; norm_num

theorem toDouble_tax :
    toDouble (5623870034678907 / 281474976710656 * (5764607523034235 / 72057594037927936)) = 7198553644389001 / 4503599627370496 := by
  have h := toDouble_eq (5623870034678907 / 281474976710656 * (5764607523034235 / 72057594037927936)) (0) 7198553644389001
    (by norm_num) (by norm_num) (by norm_num) (by norm_num) (by norm_num) (by norm_num)
  rw [h]; norm_num

theorem toDouble_total :
    toDouble (5623870034678907 / 281474976710656 + 7198553644389001 / 4503599627370496) = 1518444909363305 / 70368744177664 := by
  have h := toDouble_eq (5623870034678907 / 281474976710656 + 7198553644389001 / 4503599627370496) (4) 6073779637453220
    (by norm_num) (by norm_num) (by norm_num) (by norm_num) (by norm_num) (by norm_num)
  rw [h]; norm_num

theorem toDouble_sent :
    toDouble (1518444909363305 / 70368744177664 - 5623870034678907 / 281474976710656) = 449909602774313 / 281474976710656 := by
  have h := toDouble_eq (1518444909363305 / 70368744177664 - 5623870034678907 / 281474976710656) (0) 7198553644389008
    (by norm_num) (by norm_num) (by norm_num) (by norm_num) (by norm_num) (by norm_num)
  rw [h]; norm_num

theorem toDouble_1_5984 :
    toDouble (15984 / 10000) = 7198553644389001 / 4503599627370496 := by
  have h := toDouble_eq (15984 / 10000) (0) 7198553644389001
    (by norm_num) (by norm_num) (by norm_num) (by norm_num) (by norm_num) (by norm_num)
  rw [h]; norm_num

theorem toDouble_21_578400000000002 :
    toDouble (21578400000000002 / 1000000000000000) = 1518444909363305 / 70368744177664 := by
  have h := toDouble_eq (21578400000000002 / 1000000000000000) (4) 6073779637453220
    (by norm_num) (by norm_num) (by norm_num) (by norm_num) (by norm_num) (by norm_num)
  rw [h]; norm_num

theorem toDouble_21_5784 :
    toDouble (215784 / 10000) = 6073779637453219 / 281474976710656 := by
  have h := toDouble_eq (215784 / 10000) (4) 6073779637453219
    (by norm_num) (by norm_num) (by norm_num) (by norm_num) (by norm_num) (by norm_num)
  rw [h]; norm_num

theorem toDouble_1_60 :
    toDouble (160 / 100) = 3602879701896397 / 2251799813685248 := by
  have h := toDouble_eq (160 / 100) (0) 7205759403792794
    (by norm_num) (by norm_num) (by norm_num) (by norm_num) (by norm_num) (by norm_num)
  rw [h]; norm_num

theorem toDouble_21_58 :
    toDouble (2158 / 100) = 1518557499353989 / 70368744177664 := by
  have h := toDouble_eq (2158 / 100) (4) 6074229997415956
    (by norm_num) (by norm_num) (by norm_num) (by norm_num) (by norm_num) (by norm_num)
  rw [h]; norm_num

theorem toDouble_0_1 :
    toDouble (1 / 10) = 3602879701896397 / 36028797018963968 := by
  have h := toDouble_eq (1 / 10) (-4) 7205759403792794
    (by norm_num) (by norm_num) (by norm_num) (by norm_num) (by norm_num) (by norm_num)
  rw [h]; norm_num

theorem toDouble_dime :
    toDouble (3602879701896397 / 36028797018963968) = 3602879701896397 / 36028797018963968 := by
  have h := toDouble_eq (3602879701896397 / 36028797018963968) (-4) 7205759403792794
    (by norm_num) (by norm_num) (by norm_num) (by norm_num) (by norm_num) (by norm_num)
  rw [h]; norm_num

theorem toDouble_three_dimes :
    toDouble (3 * (3602879701896397 / 36028797018963968)) = 1351079888211149 / 4503599627370496 := by
  have h := toDouble_eq_tie_odd (3 * (3602879701896397 / 36028797018963968)) (-2) 5404319552844595
    (by norm_num) (by norm_num) (by norm_num) (by norm_num) (by norm_num) (by norm_num)
  rw [h]; norm_num

theorem toDouble_0_30000000000000004 :
    toDouble (30000000000000004 / 100000000000000000) = 1351079888211149 / 4503599627370496 := by
  have h := toDouble_eq (30000000000000004 / 100000000000000000) (-2) 5404319552844596
    (by norm_num) (by norm_num) (by norm_num) (by norm_num) (by norm_num) (by norm_num)
  rw [h]; norm_num

theorem toDouble_1_5984000000000016 :
    toDouble (15984000000000016 / 10000000000000000) = 449909602774313 / 281474976710656 := by
  have h := toDouble_eq (15984000000000016 / 10000000000000000) (0) 7198553644389008
    (by norm_num) (by norm_num) (by norm_num) (by norm_num) (by norm_num) (by norm_num)
  rw [h]; norm_num

theorem double_scenario_totals :
    IEEE.calculateTotals doubleScenarioState
      = { subtotal := 5623870034678907 / 281474976710656,
          taxAmount := 7198553644389001 / 4503599627370496,
          total := 1518444909363305 / 70368744177664 } := by
  have hsub : jsAdd 0 (5623870034678907 / 281474976710656)
      = 5623870034678907 / 281474976710656 := toDouble_subtotal
  have htax : jsMul (5623870034678907 / 281474976710656) IEEE.taxRate
      = 7198553644389001 / 4503599627370496 := by
    unfold jsMul IEEE.taxRate
    rw [toDouble_0_08]
    exact toDouble_tax
  have htotal : jsAdd (5623870034678907 / 281474976710656)
      (7198553644389001 / 4503599627370496) = 1518444909363305 / 70368744177664 :=
    toDouble_total
  simp only [IEEE.calculateTotals, doubleScenarioState, doubleScenarioLine, List.foldl,
    hsub, htax, htotal]

theorem round_scenario_tax :
    round ((7198553644389001 : ℚ) / 4503599627370496 * 100) = 160 := by
  rw [round_eq, Int.floor_eq_iff]; norm_num

theorem round_scenario_total :
    round ((1518444909363305 : ℚ) / 70368744177664 * 100) = 2158 := by
  rw [round_eq, Int.floor_eq_iff]; norm_num

theorem round_scenario_rate :
    round ((5623870034678907 : ℚ) / 281474976710656 * (8 / 100) * 100) = 160 := by
  rw [round_eq, Int.floor_eq_iff]; norm_num

/-! ## Totals -/

/-- C1 (as stated, refuted): on the cart holding the single line
price 9.99, quantity 2, `calculateTotals` returns a tax that is not rounded to
cents; it is neither `round(subtotal * taxRate)` nor 1.60, and the total is not
21.58. -/
theorem C1_tax_not_rounded :
    (IEEE.calculateTotals doubleScenarioState).taxAmount
        ≠ roundCents ((IEEE.calculateTotals doubleScenarioState).subtotal * (8 / 100))
      ∧ (IEEE.calculateTotals doubleScenarioState).taxAmount ≠ 160 / 100
      ∧ (IEEE.calculateTotals doubleScenarioState).taxAmount ≠ toDouble (160 / 100)
      ∧ (IEEE.calculateTotals doubleScenarioState).total ≠ 2158 / 100
      ∧ (IEEE.calculateTotals doubleScenarioState).total ≠ toDouble (2158 / 100) := by
  rw [double_scenario_totals, toDouble_1_60, toDouble_21_58]
  have h : roundCents ((5623870034678907 : ℚ) / 281474976710656 * (8 / 100)) = 160 / 100 := by
    rw [roundCents, round_scenario_rate]; norm_num
  refine ⟨?_, ?_, ?_, ?_, ?_⟩
  · show (7198553644389001 : ℚ) / 4503599627370496 ≠ _
    rw [h]; norm_num
  · show (7198553644389001 : ℚ) / 4503599627370496 ≠ _
    norm_num
  · show (7198553644389001 : ℚ) / 4503599627370496 ≠ _
    norm_num
  · show (1518444909363305 : ℚ) / 70368744177664 ≠ _
    norm_num
  · show (1518444909363305 : ℚ) / 70368744177664 ≠ _
    norm_num

/-- C1 (amended): for every cart, `calculateTotals` returns as `taxAmount` the
product `subtotal * taxRate` of JavaScript's double arithmetic, with `taxRate`
the double 0.08, and does not round it to cents. For the cart holding the
single line price 9.99, quantity 2, total 19.98 it returns the doubles
subtotal 19.98, taxAmount 1.5984 and total 21.578400000000002 (which is not the
double 21.5784); their roundings to cents are 1.60 and 21.58. -/
theorem C1_tax_is_double_product (s : POSState) :
    (IEEE.calculateTotals s).taxAmount
        = jsMul (IEEE.calculateTotals s).subtotal (toDouble (8 / 100))
      ∧ doubleScenarioLine.price = toDouble (999 / 100)
      ∧ doubleScenarioLine.total = toDouble (1998 / 100)
      ∧ (IEEE.calculateTotals doubleScenarioState).subtotal = toDouble (1998 / 100)
      ∧ (IEEE.calculateTotals doubleScenarioState).taxAmount = toDouble (15984 / 10000)
      ∧ (IEEE.calculateTotals doubleScenarioState).total
          = toDouble (21578400000000002 / 1000000000000000)
      ∧ (IEEE.calculateTotals doubleScenarioState).total ≠ toDouble (215784 / 10000)
      ∧ roundCents (IEEE.calculateTotals doubleScenarioState).taxAmount = 160 / 100
      ∧ roundCents (IEEE.calculateTotals doubleScenarioState).total = 2158 / 100 := by
  rw [double_scenario_totals, toDouble_9_99, toDouble_19_98, toDouble_1_5984,
    toDouble_21_578400000000002, toDouble_21_5784]
  refine ⟨rfl, rfl, rfl, rfl, rfl, rfl, ?_, ?_, ?_⟩
  · show (1518444909363305 : ℚ) / 70368744177664 ≠ _
    norm_num
  · show roundCents (7198553644389001 / 4503599627370496) = _
    rw [roundCents, round_scenario_tax]; norm_num
  · show roundCents (1518444909363305 / 70368744177664) = _
    rw [roundCents, round_scenario_total]; norm_num

/-- C2: `calculateTotals` depends on the cart lines only (two component states
with the same cart give the same totals); its subtotal is the sum of the
lines' `total` fields, which is 0 for the empty cart, and its total is
`subtotal + taxAmount`. -/
theorem C2_totals_from_cart_lines (s s' : POSState) (h : s'.cart = s.cart) :
    calculateTotals s' = calculateTotals s
      ∧ (calculateTotals s).subtotal = (s.cart.map (fun item => item.total)).sum
      ∧ (calculateTotals s).total
          = (calculateTotals s).subtotal + (calculateTotals s).taxAmount
      ∧ (calculateTotals { s with cart := [] }).subtotal = 0 := by
  refine ⟨?_, ?_, rfl, rfl⟩
  · simp only [calculateTotals, h]
  · simp [calculateTotals, foldl_total]

theorem C2_totals_from_cart_lines_witness :
    ({ scenarioState with paymentMethod := "card", processingPayment := true }
        : POSState).cart = scenarioState.cart
      ∧ calculateTotals
          { scenarioState with paymentMethod := "card", processingPayment := true }
          = calculateTotals scenarioState
      ∧ (calculateTotals scenarioState).subtotal
          = (scenarioState.cart.map (fun item => item.total)).sum
      ∧ (calculateTotals scenarioState).total
          = (calculateTotals scenarioState).subtotal
            + (calculateTotals scenarioState).taxAmount
      ∧ (calculateTotals { scenarioState with cart := [] }).subtotal = 0 :=
  ⟨rfl, C2_totals_from_cart_lines scenarioState
    { scenarioState with paymentMethod := "card", processingPayment := true } rfl⟩

/-! ## Line totals along sequences of operations -/

theorem jsMul_one (price : ℚ) (hprice : toDouble price = price) :
    jsMul ((1 : ℤ) : ℚ) price = price := by
  unfold jsMul
  rw [Int.cast_one, one_mul, hprice]

theorem linesRounded_addToCart (s : POSState) (product : Product)
    (hprice : toDouble product.price = product.price)
    (h : LinesRounded s.cart) : LinesRounded (IEEE.addToCart s product).1.cart := by
  unfold IEEE.addToCart
  split
  · split
    · exact h
    · intro item hitem
      simp only [List.mem_map] at hitem
      obtain ⟨old, hold, rfl⟩ := hitem
      by_cases hid : old.product_id = product.id
      · simp [hid]
      · simpa [hid] using h old hold
  · intro item hitem
    simp only [List.mem_append, List.mem_singleton] at hitem
    rcases hitem with hitem | rfl
    · exact h item hitem
    · exact (jsMul_one product.price hprice).symm

theorem linesRounded_removeFromCart (s : POSState) (productId : ℕ)
    (h : LinesRounded s.cart) : LinesRounded (removeFromCart s productId).cart := by
  intro item hitem
  simp only [removeFromCart, List.mem_filter] at hitem
  exact h item hitem.1

theorem linesRounded_update (s : POSState) (productId : ℕ) (newQuantity : ℤ)
    (h : LinesRounded s.cart) :
    LinesRounded (IEEE.applyOp s (.update productId newQuantity)).cart := by
  unfold IEEE.applyOp IEEE.updateCartQuantity
  by_cases hq : newQuantity ≤ 0
  · simpa [hq] using linesRounded_removeFromCart s productId h
  · simp only [hq, if_false]
    cases hfind : s.products.find? (fun p => decide (p.id = productId)) with
    | none => simpa using h
    | some product =>
      by_cases hstock : newQuantity > product.stock_quantity
      · simpa [hstock] using h
      · simp only [hstock, if_false]
        intro item hitem
        simp only [List.mem_map] at hitem
        obtain ⟨old, hold, rfl⟩ := hitem
        by_cases hid : old.product_id = productId
        · simp [hid]
        · simpa [hid] using h old hold

theorem linesRounded_of_reachable (s : POSState) (h : IEEE.Reachable s) :
    LinesRounded s.cart := by
  induction h with
  | init s h0 =>
    intro item hitem
    simp [h0] at hitem
  | add s product hprice _ ih => exact linesRounded_addToCart s product hprice ih
  | update s productId newQuantity _ ih => exact linesRounded_update s productId newQuantity ih
  | remove s productId _ ih => exact linesRounded_removeFromCart s productId ih
  | clear s _ _ =>
    intro item hitem
    simp [IEEE.applyOp, clearCart] at hitem
  | setProducts s ps _ ih => exact ih

theorem dimeStateThree_reachable : IEEE.Reachable dimeStateThree :=
  IEEE.Reachable.add _ dime toDouble_dime
    (IEEE.Reachable.add _ dime toDouble_dime
      (IEEE.Reachable.add _ dime toDouble_dime (IEEE.Reachable.init _ rfl)))

theorem dimeStateThree_cart : dimeStateThree.cart = [dimeLineThree] := by
  have hmul : jsMul 3 (3602879701896397 / 36028797018963968)
      = 1351079888211149 / 4503599627370496 := toDouble_three_dimes
  simp [dimeStateThree, IEEE.applyOp, IEEE.addToCart, initialState, dime, dimeLineThree]
  norm_num [hmul]

/-- C3 (as stated, refuted): three `addToCart` calls for a product priced at
the double 0.1 reach a cart whose line has quantity 3 and total
0.30000000000000004, which is not quantity times price in exact arithmetic. -/
theorem C3_line_total_drifts :
    IEEE.Reachable dimeStateThree
      ∧ dime.price = toDouble (1 / 10)
      ∧ dimeStateThree.cart = [dimeLineThree]
      ∧ dimeLineThree.total = toDouble (30000000000000004 / 100000000000000000)
      ∧ dimeLineThree.total ≠ (dimeLineThree.quantity : ℚ) * dimeLineThree.price := by
  refine ⟨dimeStateThree_reachable, ?_, dimeStateThree_cart, ?_, ?_⟩
  · rw [toDouble_0_1]; rfl
  · rw [toDouble_0_30000000000000004]; rfl
  · simp only [dimeLineThree]
    norm_num

/-- C3 (amended): in every cart reachable from the empty cart by any sequence of
`addToCart`, `updateCartQuantity`, `removeFromCart` and `clearCart`, every line
satisfies `total == quantity * price` as JavaScript evaluates it: the total is
the exact product rounded to the nearest double, which need not be the exact
product. -/
theorem C3_line_total_is_double_product (s : POSState) (h : IEEE.Reachable s)
    (item : CartItem) (hitem : item ∈ s.cart) :
    item.total = jsMul (item.quantity : ℚ) item.price :=
  linesRounded_of_reachable s h item hitem

theorem C3_line_total_is_double_product_witness :
    IEEE.Reachable dimeStateThree
      ∧ dimeLineThree ∈ dimeStateThree.cart
      ∧ dimeLineThree.total = jsMul (dimeLineThree.quantity : ℚ) dimeLineThree.price :=
  ⟨dimeStateThree_reachable,
   by rw [dimeStateThree_cart]; exact List.mem_singleton.mpr rfl,
   C3_line_total_is_double_product dimeStateThree dimeStateThree_reachable dimeLineThree
     (by rw [dimeStateThree_cart]; exact List.mem_singleton.mpr rfl)⟩

/-! ## Stock checks -/

theorem addToCart_existing_full (s : POSState) (product : Product) (existing : CartItem)
    (hfind : s.cart.find? (fun item => decide (item.product_id = product.id)) = some existing)
    (hfull : product.stock_quantity < existing.quantity + 1) :
    addToCart s product = (s, [Effect.toastError "Insufficient stock"]) := by
  have hge : existing.quantity ≥ product.stock_quantity := by omega
  simp [addToCart, hfind, hge]

/-- C4 (failing input): `addToCart` of a product with stock 0 into the empty
cart is accepted without any stock check; the cart gains a line of quantity 1,
above the stock of 0, and no rejection is signalled. -/
theorem C4_new_line_skips_stock_check :
    addToCart initialState soldOut
        = ({ initialState with cart := [freshLine soldOut] }, [])
      ∧ soldOut.stock_quantity < (freshLine soldOut).quantity
      ∧ (addToCart initialState soldOut).1.cart ≠ initialState.cart := by
  refine ⟨?_, by decide, ?_⟩
  · simp [addToCart, initialState, freshLine]
  · simp [addToCart, initialState]

theorem stockStateFull_cart :
    stockStateFull.cart
      = [{ product_id := 1, name := "Widget", price := 999 / 100, quantity := 3,
           total := 2997 / 100, barcode := none }] := by
  simp [stockStateFull, stockState, addToCart, initialState, widget]
  norm_num

theorem stockStateFull_products : stockStateFull.products = [widget] := by
  simp [stockStateFull, stockState, addToCart, initialState, widget]

/-- C5: when `productId` is found in the products snapshot (the entry
`products.find` returns) with stock below a positive `newQuantity`,
`updateCartQuantity` is rejected with 'Insufficient stock' and leaves the
component state, hence the cart, unchanged. Scenario: with stock 3, three
`addToCart` calls are accepted and give quantity 3, and `updateCartQuantity`
to 4 leaves the line at quantity 3. -/
theorem C5_update_above_stock_rejected (s : POSState) (productId : ℕ) (newQuantity : ℤ)
    (product : Product)
    (hfind : s.products.find? (fun p => decide (p.id = productId)) = some product)
    (hpos : 0 < newQuantity) (hstock : product.stock_quantity < newQuantity) :
    updateCartQuantity s productId newQuantity
        = .ok (s, [Effect.toastError "Insufficient stock"])
      ∧ (addToCart stockState widget).2 = []
      ∧ (addToCart (addToCart stockState widget).1 widget).2 = []
      ∧ (addToCart (addToCart (addToCart stockState widget).1 widget).1 widget).2 = []
      ∧ stockStateFull.cart.map (fun item => item.quantity) = [3]
      ∧ (applyOp stockStateFull (.update 1 4)).cart.map (fun item => item.quantity) = [3] := by
  have hnot : ¬ newQuantity ≤ 0 := by omega
  have hmain : updateCartQuantity s productId newQuantity
      = .ok (s, [Effect.toastError "Insufficient stock"]) := by
    simp [updateCartQuantity, hnot, hfind, hstock]
  refine ⟨hmain, by decide, by decide, by decide, by decide, ?_⟩
  have hupd : updateCartQuantity stockStateFull 1 4
      = .ok (stockStateFull, [Effect.toastError "Insufficient stock"]) := by
    simp [updateCartQuantity, stockStateFull_products, widget]
  simp only [applyOp, hupd]
  decide

theorem C5_update_above_stock_rejected_witness :
    stockStateFull.products.find? (fun p => decide (p.id = 1)) = some widget
      ∧ (0 : ℤ) < 4 ∧ widget.stock_quantity < 4
      ∧ updateCartQuantity stockStateFull 1 4
          = .ok (stockStateFull, [Effect.toastError "Insufficient stock"]) :=
  ⟨by rw [stockStateFull_products]; rfl, by decide, by decide,
   (C5_update_above_stock_rejected stockStateFull 1 4 widget
      (by rw [stockStateFull_products]; rfl) (by decide) (by decide)).1⟩

/-! ## Effect of the handlers on the cart lines -/

theorem getElem?_map_lines (cart : List CartItem) (f : CartItem → CartItem) (i : ℕ)
    (item : CartItem) (h : cart[i]? = some item) : (cart.map f)[i]? = some (f item) := by
  simp [List.getElem?_map, h]

theorem find?_none_of_absent (cart : List CartItem) (productId : ℕ)
    (h : ∀ item ∈ cart, item.product_id ≠ productId) :
    cart.find? (fun item => decide (item.product_id = productId)) = none := by
  simp only [List.find?_eq_none]
  intro item hitem
  simpa using h item hitem

/-- C6: when no line has the product's id (and at least one unit is in stock),
`addToCart` appends the single new line with `product_id = product.id`,
`price = product.price`, `quantity = 1`, `total = product.price` and changes
nothing else. When the line found for that id has a quantity below the
product's stock, `addToCart` is accepted, keeps length and order, raises the
quantity of the line with that id by exactly 1 (its total recomputed from its
own price) and leaves every other line unchanged. -/
theorem C6_addToCart_accepted (s : POSState) (product : Product) :
    ((∀ item ∈ s.cart, item.product_id ≠ product.id) → 1 ≤ product.stock_quantity →
        addToCart s product = ({ s with cart := s.cart ++ [freshLine product] }, []))
      ∧ (∀ existing : CartItem,
          s.cart.find? (fun item => decide (item.product_id = product.id)) = some existing →
          existing.quantity + 1 ≤ product.stock_quantity →
          (addToCart s product).2 = []
            ∧ (addToCart s product).1.cart.length = s.cart.length
            ∧ (∀ (i : ℕ) (item : CartItem), s.cart[i]? = some item →
                item.product_id = product.id →
                (addToCart s product).1.cart[i]?
                  = some { item with quantity := item.quantity + 1,
                                     total := ((item.quantity + 1 : ℤ) : ℚ) * item.price })
            ∧ (∀ (i : ℕ) (item : CartItem), s.cart[i]? = some item →
                item.product_id ≠ product.id →
                (addToCart s product).1.cart[i]? = some item)) := by
  constructor
  · intro habsent _
    simp [addToCart, find?_none_of_absent s.cart product.id habsent, freshLine]
  · intro existing hfind hstock
    have hlt : ¬ existing.quantity ≥ product.stock_quantity := by omega
    have hrun : addToCart s product
        = ({ s with cart := s.cart.map (fun item =>
              if item.product_id = product.id then
                { item with quantity := item.quantity + 1,
                            total := ((item.quantity + 1 : ℤ) : ℚ) * item.price }
              else item) }, []) := by
      simp only [addToCart, hfind, hlt, if_false]
    rw [hrun]
    refine ⟨rfl, by simp, ?_, ?_⟩
    · intro i item hi hid
      have := getElem?_map_lines s.cart (fun item =>
              if item.product_id = product.id then
                { item with quantity := item.quantity + 1,
                            total := ((item.quantity + 1 : ℤ) : ℚ) * item.price }
              else item) i item hi
      simpa [hid] using this
    · intro i item hi hid
      have := getElem?_map_lines s.cart (fun item =>
              if item.product_id = product.id then
                { item with quantity := item.quantity + 1,
                            total := ((item.quantity + 1 : ℤ) : ℚ) * item.price }
              else item) i item hi
      simpa [hid] using this

theorem stockStateOne_cart : stockStateOne.cart = [freshLine widget] := rfl

theorem C6_addToCart_accepted_witness :
    ((∀ item ∈ stockState.cart, item.product_id ≠ widget.id)
        ∧ 1 ≤ widget.stock_quantity
        ∧ addToCart stockState widget
            = ({ stockState with cart := stockState.cart ++ [freshLine widget] }, []))
      ∧ (stockStateOne.cart.find? (fun item => decide (item.product_id = widget.id))
            = some (freshLine widget)
          ∧ (freshLine widget).quantity + 1 ≤ widget.stock_quantity
          ∧ stockStateOne.cart[0]? = some (freshLine widget)
          ∧ (freshLine widget).product_id = widget.id
          ∧ (addToCart stockStateOne widget).1.cart[0]?
              = some { freshLine widget with
                  quantity := (freshLine widget).quantity + 1,
                  total := (((freshLine widget).quantity + 1 : ℤ) : ℚ)
                            * (freshLine widget).price }) :=
  ⟨⟨(by intro item hitem; cases hitem), by decide,
     (C6_addToCart_accepted stockState widget).1
       (by intro item hitem; cases hitem) (by decide)⟩,
   ⟨by rw [stockStateOne_cart]; rfl, by decide, by rw [stockStateOne_cart]; rfl, rfl,
     ((C6_addToCart_accepted stockStateOne widget).2 (freshLine widget)
       (by rw [stockStateOne_cart]; rfl) (by decide)).2.2.1 0 (freshLine widget)
       (by rw [stockStateOne_cart]; rfl) rfl⟩⟩

/-- C7: for `newQuantity <= 0`, `updateCartQuantity(productId, newQuantity)`
returns normally with exactly the state `removeFromCart(productId)` yields and
no toast, whatever the products snapshot holds (no lookup, no rejection). -/
theorem C7_update_nonpositive_removes (s : POSState) (productId : ℕ) (newQuantity : ℤ)
    (h : newQuantity ≤ 0) :
    updateCartQuantity s productId newQuantity = .ok (removeFromCart s productId, []) := by
  simp [updateCartQuantity, h]

theorem C7_update_nonpositive_removes_witness :
    (0 : ℤ) ≤ 0
      ∧ scenarioState.products = []
      ∧ updateCartQuantity scenarioState 1 0 = .ok (removeFromCart scenarioState 1, [])
      ∧ (removeFromCart scenarioState 1).cart = [] :=
  ⟨le_refl 0, rfl, C7_update_nonpositive_removes scenarioState 1 0 (le_refl 0), by decide⟩

/-- C8: when `productId` is found in the products snapshot with stock at least
`newQuantity > 0`, `updateCartQuantity` is accepted and yields a cart of the
same length and order: every line with that `productId` gets
`quantity = newQuantity` and `total = newQuantity * price`, its price and other
fields kept, and every other line is unchanged. -/
theorem C8_update_within_stock (s : POSState) (productId : ℕ) (newQuantity : ℤ)
    (product : Product)
    (hfind : s.products.find? (fun p => decide (p.id = productId)) = some product)
    (hpos : 0 < newQuantity) (hstock : newQuantity ≤ product.stock_quantity) :
    ∃ s1 : POSState, updateCartQuantity s productId newQuantity = .ok (s1, [])
      ∧ s1.cart.length = s.cart.length
      ∧ (∀ (i : ℕ) (item : CartItem), s.cart[i]? = some item →
          item.product_id = productId →
          s1.cart[i]? = some { item with quantity := newQuantity,
                                         total := (newQuantity : ℚ) * item.price })
      ∧ (∀ (i : ℕ) (item : CartItem), s.cart[i]? = some item →
          item.product_id ≠ productId → s1.cart[i]? = some item) := by
  have hnot : ¬ newQuantity ≤ 0 := by omega
  have hle : ¬ newQuantity > product.stock_quantity := by omega
  refine ⟨{ s with cart := s.cart.map (fun item =>
            if item.product_id = productId then
              { item with quantity := newQuantity,
                          total := (newQuantity : ℚ) * item.price }
            else item) }, ?_, by simp, ?_, ?_⟩
  · simp only [updateCartQuantity, hnot, hfind, hle, if_false]
  · intro i item hi hid
    have := getElem?_map_lines s.cart (fun item =>
            if item.product_id = productId then
              { item with quantity := newQuantity,
                          total := (newQuantity : ℚ) * item.price }
            else item) i item hi
    simpa [hid] using this
  · intro i item hi hid
    have := getElem?_map_lines s.cart (fun item =>
            if item.product_id = productId then
              { item with quantity := newQuantity,
                          total := (newQuantity : ℚ) * item.price }
            else item) i item hi
    simpa [hid] using this

theorem C8_update_within_stock_witness :
    stockStateOne.products.find? (fun p => decide (p.id = 1)) = some widget
      ∧ (0 : ℤ) < 3 ∧ (3 : ℤ) ≤ widget.stock_quantity
      ∧ ∃ s1 : POSState, updateCartQuantity stockStateOne 1 3 = .ok (s1, [])
          ∧ s1.cart.length = stockStateOne.cart.length
          ∧ (∀ (i : ℕ) (item : CartItem), stockStateOne.cart[i]? = some item →
              item.product_id = 1 →
              s1.cart[i]? = some { item with quantity := 3,
                                             total := ((3 : ℤ) : ℚ) * item.price })
          ∧ (∀ (i : ℕ) (item : CartItem), stockStateOne.cart[i]? = some item →
              item.product_id ≠ 1 → s1.cart[i]? = some item) :=
  ⟨rfl, by decide, by decide,
   C8_update_within_stock stockStateOne 1 3 widget rfl (by decide) (by decide)⟩

/-- C9: `removeFromCart` always succeeds; its result holds no line with the
given `productId`, is a sub-list of the cart (relative order kept) in which
every line with another id occurs exactly as often as before, removing a
second time changes nothing, and removing an id no line carries leaves the
state as it was. -/
theorem C9_removeFromCart (s : POSState) (productId : ℕ) :
    (∀ item ∈ (removeFromCart s productId).cart, item.product_id ≠ productId)
      ∧ List.Sublist (removeFromCart s productId).cart s.cart
      ∧ (∀ item : CartItem, item.product_id ≠ productId →
          (removeFromCart s productId).cart.count item = s.cart.count item)
      ∧ removeFromCart (removeFromCart s productId) productId = removeFromCart s productId
      ∧ ((∀ item ∈ s.cart, item.product_id ≠ productId) → removeFromCart s productId = s) := by
  refine ⟨?_, ?_, ?_, ?_, ?_⟩
  · intro item hitem
    simp only [removeFromCart, List.mem_filter] at hitem
    simpa using hitem.2
  · simp [removeFromCart]
  · intro item hid
    simp only [removeFromCart]
    exact List.count_filter (by simpa using hid)
  · simp [removeFromCart]
  · intro habsent
    have hkeep : s.cart.filter (fun item => decide (item.product_id ≠ productId)) = s.cart := by
      rw [List.filter_eq_self]
      intro item hitem
      simpa using habsent item hitem
    simp only [removeFromCart, hkeep]

theorem C9_removeFromCart_witness :
    (∀ item ∈ scenarioState.cart, item.product_id ≠ 2)
      ∧ removeFromCart scenarioState 2 = scenarioState
      ∧ (removeFromCart scenarioState 1).cart = [] :=
  ⟨by decide,
   (C9_removeFromCart scenarioState 2).2.2.2.2 (by decide),
   by decide⟩

/-- C10: for every cart, whatever its length, and any selected customer,
`clearCart` yields the empty cart with `selectedCustomer = null`, and
`calculateTotals` on the result returns subtotal 0, tax 0 and total 0. -/
theorem C10_clearCart (s : POSState) :
    (clearCart s).cart = []
      ∧ (clearCart s).selectedCustomer = none
      ∧ calculateTotals (clearCart s) = { subtotal := 0, taxAmount := 0, total := 0 } := by
  refine ⟨rfl, rfl, ?_⟩
  simp [calculateTotals, clearCart]

/-! ## Uniqueness of product ids and positive quantities -/

theorem map_id_update_lines (cart : List CartItem) (f : CartItem → CartItem)
    (hf : ∀ item, (f item).product_id = item.product_id) :
    (cart.map f).map (fun item => item.product_id)
      = cart.map (fun item => item.product_id) := by
  induction cart with
  | nil => rfl
  | cons item rest ih =>
    simp only [List.map_cons, hf, List.cons.injEq, true_and]
    exact ih

theorem ids_nodup_addToCart (s : POSState) (product : Product)
    (h : (s.cart.map (fun item => item.product_id)).Nodup) :
    ((addToCart s product).1.cart.map (fun item => item.product_id)).Nodup := by
  unfold addToCart
  split
  · split
    · exact h
    · show ((s.cart.map _).map _).Nodup
      rw [map_id_update_lines]
      · exact h
      · intro item
        by_cases hid : item.product_id = product.id <;> simp [hid]
  · rename_i hnone
    show ((s.cart ++ [_]).map _).Nodup
    rw [List.map_append, List.nodup_append]
    refine ⟨h, by simp, ?_⟩
    simp only [List.find?_eq_none, decide_eq_true_eq] at hnone
    intro a ha hb
    simp only [List.map_cons, List.map_nil, List.mem_singleton] at hb
    simp only [List.mem_map] at ha
    obtain ⟨item, hitem, rfl⟩ := ha
    exact hnone item hitem hb

theorem ids_nodup_removeFromCart (s : POSState) (productId : ℕ)
    (h : (s.cart.map (fun item => item.product_id)).Nodup) :
    ((removeFromCart s productId).cart.map (fun item => item.product_id)).Nodup :=
  List.Nodup.sublist (List.Sublist.map _ (List.filter_sublist s.cart)) h

theorem ids_nodup_applyOp (s : POSState) (op : CartOp)
    (h : (s.cart.map (fun item => item.product_id)).Nodup) :
    ((applyOp s op).cart.map (fun item => item.product_id)).Nodup := by
  cases op with
  | add product => exact ids_nodup_addToCart s product h
  | update productId newQuantity =>
    unfold applyOp updateCartQuantity
    by_cases hq : newQuantity ≤ 0
    · simpa [hq] using ids_nodup_removeFromCart s productId h
    · simp only [hq, if_false]
      cases hfind : s.products.find? (fun p => decide (p.id = productId)) with
      | none => simpa using h
      | some product =>
        by_cases hstock : newQuantity > product.stock_quantity
        · simpa [hstock] using h
        · simp only [hstock, if_false]
          show ((s.cart.map _).map _).Nodup
          rw [map_id_update_lines]
          · exact h
          · intro item
            by_cases hid : item.product_id = productId <;> simp [hid]
  | remove productId => exact ids_nodup_removeFromCart s productId h
  | clear => simp [applyOp, clearCart]

theorem ids_nodup_of_reachable (s : POSState) (h : Reachable s) :
    (s.cart.map (fun item => item.product_id)).Nodup := by
  induction h with
  | init s h0 => simp [h0]
  | step s op _ ih => exact ids_nodup_applyOp s op ih
  | setProducts s ps _ ih => exact ih

/-- C11: in every cart reachable from the empty cart by any sequence of
`addToCart`, `updateCartQuantity`, `removeFromCart` and `clearCart`, no two
lines have the same `product_id`. -/
theorem C11_product_ids_unique (s : POSState) (h : Reachable s) :
    (s.cart.map (fun item => item.product_id)).Nodup :=
  ids_nodup_of_reachable s h

theorem C11_product_ids_unique_witness :
    Reachable (applyOp (applyOp stockState (.add widget)) (.add soldOut))
      ∧ (applyOp (applyOp stockState (.add widget)) (.add soldOut)).cart.map
            (fun item => item.product_id) = [1, 7]
      ∧ ((applyOp (applyOp stockState (.add widget)) (.add soldOut)).cart.map
            (fun item => item.product_id)).Nodup :=
  ⟨Reachable.step _ _ (Reachable.step _ _ (Reachable.init _ rfl)), by decide,
   C11_product_ids_unique _
     (Reachable.step _ _ (Reachable.step _ _ (Reachable.init _ rfl)))⟩

theorem quantitiesPositive_addToCart (s : POSState) (product : Product)
    (h : QuantitiesPositive s.cart) : QuantitiesPositive (addToCart s product).1.cart := by
  unfold addToCart
  split
  · split
    · exact h
    · intro item hitem
      simp only [List.mem_map] at hitem
      obtain ⟨old, hold, rfl⟩ := hitem
      have hq := h old hold
      by_cases hid : old.product_id = product.id
      · simp only [hid, if_true]
        omega
      · simpa [hid] using hq
  · intro item hitem
    simp only [List.mem_append, List.mem_singleton] at hitem
    rcases hitem with hitem | rfl
    · exact h item hitem
    · exact le_refl 1

theorem quantitiesPositive_removeFromCart (s : POSState) (productId : ℕ)
    (h : QuantitiesPositive s.cart) : QuantitiesPositive (removeFromCart s productId).cart := by
  intro item hitem
  simp only [removeFromCart, List.mem_filter] at hitem
  exact h item hitem.1

theorem quantitiesPositive_applyOp (s : POSState) (op : CartOp)
    (h : QuantitiesPositive s.cart) : QuantitiesPositive (applyOp s op).cart := by
  cases op with
  | add product => exact quantitiesPositive_addToCart s product h
  | update productId newQuantity =>
    unfold applyOp updateCartQuantity
    by_cases hq : newQuantity ≤ 0
    · simpa [hq] using quantitiesPositive_removeFromCart s productId h
    · simp only [hq, if_false]
      cases hfind : s.products.find? (fun p => decide (p.id = productId)) with
      | none => simpa using h
      | some product =>
        by_cases hstock : newQuantity > product.stock_quantity
        · simpa [hstock] using h
        · simp only [hstock, if_false]
          intro item hitem
          simp only [List.mem_map] at hitem
          obtain ⟨old, hold, rfl⟩ := hitem
          have hold1 := h old hold
          by_cases hid : old.product_id = productId
          · simp only [hid, if_true]
            omega
          · simpa [hid] using hold1
  | remove productId => exact quantitiesPositive_removeFromCart s productId h
  | clear =>
    intro item hitem
    simp [applyOp, clearCart] at hitem

theorem quantitiesPositive_of_reachable (s : POSState) (h : Reachable s) :
    QuantitiesPositive s.cart := by
  induction h with
  | init s h0 =>
    intro item hitem
    simp [h0] at hitem
  | step s op _ ih => exact quantitiesPositive_applyOp s op ih
  | setProducts s ps _ ih => exact ih

/-- C12: in every cart reachable from the empty cart by any sequence of
`addToCart`, `updateCartQuantity` (integer quantities), `removeFromCart` and
`clearCart`, every line has `quantity >= 1`; and an `updateCartQuantity` to a
quantity of 0 or less leaves no line with that product id in the cart. -/
theorem C12_quantity_at_least_one (s : POSState) (h : Reachable s) :
    (∀ item ∈ s.cart, 1 ≤ item.quantity)
      ∧ (∀ (productId : ℕ) (newQuantity : ℤ), newQuantity ≤ 0 →
          ∀ item ∈ (applyOp s (.update productId newQuantity)).cart,
            item.product_id ≠ productId) := by
  refine ⟨quantitiesPositive_of_reachable s h, ?_⟩
  intro productId newQuantity hq item hitem
  simp only [applyOp, updateCartQuantity, hq, if_true, removeFromCart,
    List.mem_filter] at hitem
  simpa using hitem.2

theorem C12_quantity_at_least_one_witness :
    Reachable (applyOp stockState (.add widget))
      ∧ (applyOp stockState (.add widget)).cart.map (fun item => item.quantity) = [1]
      ∧ (applyOp (applyOp stockState (.add widget)) (.update 1 0)).cart = []
      ∧ ((∀ item ∈ (applyOp stockState (.add widget)).cart, 1 ≤ item.quantity)
          ∧ (∀ (productId : ℕ) (newQuantity : ℤ), newQuantity ≤ 0 →
              ∀ item ∈ (applyOp (applyOp stockState (.add widget))
                  (.update productId newQuantity)).cart,
                item.product_id ≠ productId)) :=
  ⟨Reachable.step _ _ (Reachable.init _ rfl), by decide, by decide,
   C12_quantity_at_least_one _ (Reachable.step _ _ (Reachable.init _ rfl))⟩

/-! ## Frozen unit price -/

theorem findLine_map (cart : List CartItem) (f : CartItem → CartItem) (productId : ℕ)
    (hf : ∀ item, (f item).product_id = item.product_id) :
    findLine (cart.map f) productId = (findLine cart productId).map f := by
  induction cart with
  | nil => rfl
  | cons item rest ih =>
    unfold findLine at ih ⊢
    by_cases hid : item.product_id = productId
    · simp [List.find?_cons, hf, hid]
    · simp only [List.map_cons, List.find?_cons, hf, hid, decide_False]
      exact ih

theorem findLine_filter_of_ne (cart : List CartItem) (removed productId : ℕ)
    (hne : productId ≠ removed) :
    findLine (cart.filter (fun item => decide (item.product_id ≠ removed))) productId
      = findLine cart productId := by
  unfold findLine
  rw [List.find?_filter]
  have hpred : (fun item : CartItem =>
        decide (decide (item.product_id ≠ removed) = true
          ∧ decide (item.product_id = productId) = true))
      = (fun item : CartItem => decide (item.product_id = productId)) := by
    funext item
    by_cases hid : item.product_id = productId
    · simp [hid, hne]
    · simp [hid]
  rw [hpred]

theorem findLine_id (cart : List CartItem) (productId : ℕ) (item : CartItem)
    (h : findLine cart productId = some item) : item.product_id = productId := by
  have := List.find?_some h
  simpa using this

theorem findLine_mem (cart : List CartItem) (productId : ℕ) (item : CartItem)
    (h : findLine cart productId = some item) : item ∈ cart :=
  List.mem_of_find?_eq_some h

theorem price_frozen_map (cart : List CartItem) (f : CartItem → CartItem) (productId : ℕ)
    (old new : CartItem)
    (hid : ∀ item, (f item).product_id = item.product_id)
    (hf : ∀ item, (f item).price = item.price
      ∧ (f item = item ∨ (f item).total = ((f item).quantity : ℚ) * item.price))
    (hold : findLine cart productId = some old)
    (hnew : findLine (cart.map f) productId = some new) :
    new.price = old.price ∧ (new = old ∨ new.total = (new.quantity : ℚ) * old.price) := by
  rw [findLine_map cart f productId hid, hold] at hnew
  have hnew2 : f old = new := by simpa using hnew
  subst hnew2
  exact hf old

/-- C13: across any cart handler, a line that is found for a product id both
before and after the handler keeps its unit price, and is either untouched or
has its total recomputed as quantity times that captured price; this holds for
`addToCart` with any product object (whatever price it carries) and for every
`updateCartQuantity`. -/
theorem C13_price_frozen (s : POSState) (op : CartOp) (productId : ℕ) (old new : CartItem)
    (hold : findLine s.cart productId = some old)
    (hnew : findLine (applyOp s op).cart productId = some new) :
    new.price = old.price ∧ (new = old ∨ new.total = (new.quantity : ℚ) * old.price) := by
  have hsame : ∀ cart, cart = s.cart → findLine cart productId = some new →
      new.price = old.price ∧ (new = old ∨ new.total = (new.quantity : ℚ) * old.price) := by
    intro cart hcart hfound
    rw [hcart, hold] at hfound
    simp only [Option.some.injEq] at hfound
    subst hfound
    exact ⟨rfl, Or.inl rfl⟩
  have hremove : ∀ removed, findLine (removeFromCart s removed).cart productId = some new →
      new.price = old.price ∧ (new = old ∨ new.total = (new.quantity : ℚ) * old.price) := by
    intro removed hfound
    have hmem := findLine_mem _ _ _ hfound
    have hidnew := findLine_id _ _ _ hfound
    simp only [removeFromCart, List.mem_filter, decide_eq_true_eq] at hmem
    have hne : productId ≠ removed := by
      rw [← hidnew]; exact hmem.2
    simp only [removeFromCart] at hfound
    rw [findLine_filter_of_ne _ _ _ hne] at hfound
    exact hsame s.cart rfl hfound
  cases op with
  | add product =>
    simp only [applyOp, addToCart] at hnew
    cases hfind : s.cart.find? (fun item => decide (item.product_id = product.id)) with
    | none =>
      rw [hfind] at hnew
      simp only [findLine, List.find?_append] at hnew
      unfold findLine at hold
      rw [hold] at hnew
      have hnew2 : old = new := by simpa using hnew
      subst hnew2
      exact ⟨rfl, Or.inl rfl⟩
    | some existing =>
      rw [hfind] at hnew
      by_cases hge : existing.quantity ≥ product.stock_quantity
      · simp only [hge, if_true] at hnew
        exact hsame s.cart rfl hnew
      · simp only [hge, if_false] at hnew
        refine price_frozen_map s.cart _ productId old new ?_ ?_ hold hnew
        · intro item
          by_cases hid : item.product_id = product.id <;> simp [hid]
        · intro item
          by_cases hid : item.product_id = product.id <;> simp [hid]
  | update target newQuantity =>
    simp only [applyOp, updateCartQuantity] at hnew
    by_cases hq : newQuantity ≤ 0
    · simp only [hq, if_true] at hnew
      exact hremove target hnew
    · simp only [hq, if_false] at hnew
      cases hfind : s.products.find? (fun p => decide (p.id = target)) with
      | none =>
        rw [hfind] at hnew
        exact hsame s.cart rfl hnew
      | some product =>
        rw [hfind] at hnew
        by_cases hstock : newQuantity > product.stock_quantity
        · simp only [hstock, if_true] at hnew
          exact hsame s.cart rfl hnew
        · simp only [hstock, if_false] at hnew
          refine price_frozen_map s.cart _ productId old new ?_ ?_ hold hnew
          · intro item
            by_cases hid : item.product_id = target <;> simp [hid]
          · intro item
            by_cases hid : item.product_id = target <;> simp [hid]
  | remove removed => exact hremove removed hnew
  | clear =>
    simp [applyOp, clearCart, findLine] at hnew

theorem repriced_add_line :
    findLine (applyOp stockStateOne (.add repricedWidget)).cart 1 = some widgetLineTwo := by
  simp [applyOp, addToCart, stockStateOne_cart, freshLine, findLine, repricedWidget, widget,
    widgetLineTwo]
  norm_num

theorem C13_price_frozen_witness :
    findLine stockStateOne.cart 1 = some (freshLine widget)
      ∧ findLine (applyOp stockStateOne (.add repricedWidget)).cart 1 = some widgetLineTwo
      ∧ repricedWidget.price = 20
      ∧ (widgetLineTwo.price = (freshLine widget).price
          ∧ (widgetLineTwo = freshLine widget
              ∨ widgetLineTwo.total
                  = (widgetLineTwo.quantity : ℚ) * (freshLine widget).price)) :=
  ⟨rfl, repriced_add_line, rfl,
   C13_price_frozen stockStateOne (.add repricedWidget) 1 (freshLine widget) widgetLineTwo
     rfl repriced_add_line⟩

/-! ## Payment -/

theorem processPayment_failed (s : POSState) (socket : Bool) (error : HttpError)
    (products : Except HttpError (List Product)) (h : s.cart ≠ []) :
    processPayment s socket (.error error) products
      = ({ s with processingPayment := false },
          [Effect.httpPost "/api/sales" (saleData s),
           Effect.toastError (paymentErrorMessage error)]) := by
  have hlen : ¬ s.cart.length = 0 := by simpa using h
  simp [processPayment, hlen]

theorem processPayment_paid (s : POSState) (socket : Bool) (response : SaleResponse)
    (products : Except HttpError (List Product)) (h : s.cart ≠ []) :
    processPayment s socket (.ok response) products
      = ({ (loadProducts (clearCart { s with processingPayment := true }) products).1 with
            processingPayment := false },
          [Effect.httpPost "/api/sales" (saleData s)]
            ++ emitEvent socket "sale_completed"
                { sale_id := response.sale_id, sale_number := response.sale_number,
                  total := response.total }
            ++ [Effect.toastSuccess ("Sale completed! Receipt: " ++ response.sale_number)]
            ++ printReceipt response.sale_number
            ++ (loadProducts (clearCart { s with processingPayment := true }) products).2) := by
  have hlen : ¬ s.cart.length = 0 := by simpa using h
  simp [processPayment, hlen]

theorem loadProducts_cart (s : POSState) (response : Except HttpError (List Product)) :
    (loadProducts s response).1.cart = s.cart
      ∧ (loadProducts s response).1.selectedCustomer = s.selectedCustomer := by
  cases response <;> exact ⟨rfl, rfl⟩

theorem loadProducts_effects (s : POSState) (response : Except HttpError (List Product))
    (effect : Effect) (h : effect ∈ (loadProducts s response).2) :
    effect = Effect.httpGet "/api/products"
      ∨ effect = Effect.toastError "Failed to load products" := by
  cases response with
  | ok products =>
    simp only [loadProducts, List.mem_singleton] at h
    exact Or.inl h
  | error error => simpa [loadProducts] using h

/-- C14: for every non-empty cart, when the `POST /api/sales` request of
`processPayment` fails, with or without an error body from the server, the
cart lines and the selected customer afterwards are exactly those before, and
no event is emitted on the socket. -/
theorem C14_failed_payment_keeps_cart (s : POSState) (socket : Bool) (error : HttpError)
    (products : Except HttpError (List Product)) (h : s.cart ≠ []) :
    (processPayment s socket (.error error) products).1.cart = s.cart
      ∧ (processPayment s socket (.error error) products).1.selectedCustomer
          = s.selectedCustomer
      ∧ (∀ (event : String) (data : SaleCompleted),
          Effect.emit event data ∉ (processPayment s socket (.error error) products).2) := by
  rw [processPayment_failed s socket error products h]
  refine ⟨rfl, rfl, ?_⟩
  intro event data hmem
  simp at hmem

theorem C14_failed_payment_keeps_cart_witness :
    checkoutState.cart ≠ []
      ∧ (processPayment checkoutState true
            (.error { responseError := some "Insufficient stock" }) (.ok [widget])).1.cart
          = [scenarioLine]
      ∧ (processPayment checkoutState true
            (.error { responseError := some "Insufficient stock" })
            (.ok [widget])).1.selectedCustomer
          = some alice
      ∧ (∀ (event : String) (data : SaleCompleted),
          Effect.emit event data ∉ (processPayment checkoutState true
            (.error { responseError := some "Insufficient stock" }) (.ok [widget])).2) :=
  ⟨List.cons_ne_nil _ _,
   C14_failed_payment_keeps_cart checkoutState true
     { responseError := some "Insufficient stock" } (.ok [widget]) (List.cons_ne_nil _ _)⟩

/-- C15: for every non-empty cart, when the `POST /api/sales` request of
`processPayment` succeeds, the cart afterwards is empty and the selected
customer is null, whatever the later reload of the products returns. -/
theorem C15_paid_cart_consumed (s : POSState) (socket : Bool) (response : SaleResponse)
    (products : Except HttpError (List Product)) (h : s.cart ≠ []) :
    (processPayment s socket (.ok response) products).1.cart = []
      ∧ (processPayment s socket (.ok response) products).1.selectedCustomer = none := by
  rw [processPayment_paid s socket response products h]
  have hload := loadProducts_cart (clearCart { s with processingPayment := true }) products
  exact ⟨hload.1, hload.2⟩

theorem C15_paid_cart_consumed_witness :
    checkoutState.cart ≠ []
      ∧ (processPayment checkoutState true (.ok serverAnswer) (.ok [widget])).1.cart = []
      ∧ (processPayment checkoutState true (.ok serverAnswer)
            (.ok [widget])).1.selectedCustomer = none :=
  ⟨List.cons_ne_nil _ _,
   C15_paid_cart_consumed checkoutState true serverAnswer (.ok [widget])
     (List.cons_ne_nil _ _)⟩

/-- C16: `processPayment` on an empty cart only shows the toast
'Cart is empty': the component state (cart, selected customer,
`processingPayment` and all other cells) is unchanged, no request is posted and
no event is emitted. -/
theorem C16_empty_cart_rejected (s : POSState) (socket : Bool)
    (post : Except HttpError SaleResponse) (products : Except HttpError (List Product))
    (h : s.cart = []) :
    processPayment s socket post products = (s, [Effect.toastError "Cart is empty"])
      ∧ (∀ (url : String) (body : SaleData),
          Effect.httpPost url body ∉ (processPayment s socket post products).2)
      ∧ (∀ (event : String) (data : SaleCompleted),
          Effect.emit event data ∉ (processPayment s socket post products).2)
      ∧ (processPayment s socket post products).1.cart = s.cart
      ∧ (processPayment s socket post products).1.selectedCustomer = s.selectedCustomer
      ∧ (processPayment s socket post products).1.processingPayment
          = s.processingPayment := by
  have hrun : processPayment s socket post products
      = (s, [Effect.toastError "Cart is empty"]) := by
    simp [processPayment, h]
  rw [hrun]
  refine ⟨rfl, ?_, ?_, rfl, rfl, rfl⟩
  · intro url body hmem
    simp at hmem
  · intro event data hmem
    simp at hmem

theorem C16_empty_cart_rejected_witness :
    ({ initialState with selectedCustomer := some alice, processingPayment := true }
        : POSState).cart = []
      ∧ processPayment
          { initialState with selectedCustomer := some alice, processingPayment := true }
          true (.ok serverAnswer) (.ok [widget])
        = ({ initialState with selectedCustomer := some alice, processingPayment := true },
            [Effect.toastError "Cart is empty"]) :=
  ⟨rfl,
   (C16_empty_cart_rejected
      { initialState with selectedCustomer := some alice, processingPayment := true }
      true (.ok serverAnswer) (.ok [widget]) rfl).1⟩

theorem processPayment_posts (s : POSState) (socket : Bool)
    (post : Except HttpError SaleResponse) (products : Except HttpError (List Product))
    (h : s.cart ≠ []) :
    ∃ rest : List Effect,
      (processPayment s socket post products).2
          = Effect.httpPost "/api/sales" (saleData s) :: rest
        ∧ ∀ (url : String) (body : SaleData), Effect.httpPost url body ∉ rest := by
  cases post with
  | error error =>
    rw [processPayment_failed s socket error products h]
    refine ⟨[Effect.toastError (paymentErrorMessage error)], rfl, ?_⟩
    intro url body hmem
    simp at hmem
  | ok response =>
    rw [processPayment_paid s socket response products h]
    refine ⟨emitEvent socket "sale_completed"
          { sale_id := response.sale_id, sale_number := response.sale_number,
            total := response.total }
        ++ [Effect.toastSuccess ("Sale completed! Receipt: " ++ response.sale_number)]
        ++ printReceipt response.sale_number
        ++ (loadProducts (clearCart { s with processingPayment := true }) products).2,
      by simp, ?_⟩
    intro url body hmem
    simp only [List.append_assoc, List.mem_append] at hmem
    rcases hmem with hmem | hmem | hmem | hmem
    · cases socket <;> simp [emitEvent] at hmem
    · simp at hmem
    · simp [printReceipt] at hmem
    · rcases loadProducts_effects _ _ _ hmem with hget | htoast
      · cases hget
      · cases htoast

/-- C17: for every non-empty cart, whatever the server answers, `processPayment`
posts exactly one body, to `/api/sales`; its `items` list has one entry per cart
line in cart order, each with the line's `product_id`, `quantity` and
`unit_price = price`; `customer_id` is the selected customer's id, absent when
none is selected; `payment_method` is the selected payment method. -/
theorem C17_posted_body (s : POSState) (socket : Bool)
    (post : Except HttpError SaleResponse) (products : Except HttpError (List Product))
    (h : s.cart ≠ []) :
    ∃ (body : SaleData) (rest : List Effect),
      (processPayment s socket post products).2 = Effect.httpPost "/api/sales" body :: rest
        ∧ (∀ (url : String) (other : SaleData), Effect.httpPost url other ∉ rest)
        ∧ body.items.length = s.cart.length
        ∧ (∀ (i : ℕ) (item : CartItem), s.cart[i]? = some item →
            body.items[i]? = some { product_id := item.product_id,
                                    quantity := item.quantity,
                                    unit_price := item.price })
        ∧ body.customer_id = s.selectedCustomer.map (fun customer => customer.id)
        ∧ (s.selectedCustomer = none → body.customer_id = none)
        ∧ body.payment_method = s.paymentMethod := by
  obtain ⟨rest, hrun, hrest⟩ := processPayment_posts s socket post products h
  refine ⟨saleData s, rest, hrun, hrest, by simp [saleData], ?_, rfl, ?_, rfl⟩
  · intro i item hi
    simp [saleData, List.getElem?_map, hi]
  · intro hnone
    simp [saleData, hnone]

theorem C17_posted_body_witness :
    checkoutState.cart ≠ []
      ∧ ∃ (body : SaleData) (rest : List Effect),
          (processPayment checkoutState true (.ok serverAnswer) (.ok [widget])).2
              = Effect.httpPost "/api/sales" body :: rest
            ∧ (∀ (url : String) (other : SaleData), Effect.httpPost url other ∉ rest)
            ∧ body.items.length = checkoutState.cart.length
            ∧ (∀ (i : ℕ) (item : CartItem), checkoutState.cart[i]? = some item →
                body.items[i]? = some { product_id := item.product_id,
                                        quantity := item.quantity,
                                        unit_price := item.price })
            ∧ body.customer_id = checkoutState.selectedCustomer.map (fun customer => customer.id)
            ∧ (checkoutState.selectedCustomer = none → body.customer_id = none)
            ∧ body.payment_method = checkoutState.paymentMethod :=
  ⟨List.cons_ne_nil _ _,
   C17_posted_body checkoutState true (.ok serverAnswer) (.ok [widget])
     (List.cons_ne_nil _ _)⟩

theorem double_processPayment_posts (s : POSState) (socket : Bool)
    (post : Except HttpError SaleResponse) (products : Except HttpError (List Product))
    (h : s.cart ≠ []) :
    ∃ rest : List Effect,
      (IEEE.processPayment s socket post products).2
        = Effect.httpPost "/api/sales" (IEEE.saleData s) :: rest := by
  have hlen : ¬ s.cart.length = 0 := by simpa using h
  cases post with
  | error error =>
    exact ⟨[Effect.toastError (paymentErrorMessage error)],
      by simp [IEEE.processPayment, hlen]⟩
  | ok response =>
    exact ⟨emitEvent socket "sale_completed"
          { sale_id := response.sale_id, sale_number := response.sale_number,
            total := response.total }
        ++ [Effect.toastSuccess ("Sale completed! Receipt: " ++ response.sale_number)]
        ++ printReceipt response.sale_number
        ++ (loadProducts (clearCart { s with processingPayment := true }) products).2,
      by simp [IEEE.processPayment, hlen]⟩

theorem double_scenario_sent :
    (IEEE.saleData doubleScenarioState).tax_amount = 449909602774313 / 281474976710656 := by
  have hsub : jsAdd 0 (5623870034678907 / 281474976710656)
      = 5623870034678907 / 281474976710656 := toDouble_subtotal
  have hsent : jsSub (1518444909363305 / 70368744177664)
      (5623870034678907 / 281474976710656) = 449909602774313 / 281474976710656 :=
    toDouble_sent
  simp only [IEEE.saleData, double_scenario_totals]
  simp only [doubleScenarioState, doubleScenarioLine, List.foldl, hsub, hsent]

/-- C18 (as stated, refuted): for the cart holding the single line price 9.99,
quantity 2, the `tax_amount` that `processPayment` posts is
1.5984000000000016, while `calculateTotals().taxAmount` is 1.5984; the posted
value is not the rate-based tax, neither as computed nor as the exact product
of subtotal and rate. -/
theorem C18_sent_tax_differs :
    doubleScenarioState.cart ≠ []
      ∧ (IEEE.processPayment doubleScenarioState true (.ok serverAnswer) (.ok [widget])).2.head?
          = some (Effect.httpPost "/api/sales" (IEEE.saleData doubleScenarioState))
      ∧ (IEEE.saleData doubleScenarioState).tax_amount
          = toDouble (15984000000000016 / 10000000000000000)
      ∧ (IEEE.calculateTotals doubleScenarioState).taxAmount = toDouble (15984 / 10000)
      ∧ (IEEE.saleData doubleScenarioState).tax_amount
          ≠ (IEEE.calculateTotals doubleScenarioState).taxAmount
      ∧ (IEEE.saleData doubleScenarioState).tax_amount
          ≠ (IEEE.calculateTotals doubleScenarioState).subtotal * IEEE.taxRate
      ∧ (IEEE.saleData doubleScenarioState).tax_amount
          ≠ (IEEE.calculateTotals doubleScenarioState).subtotal * (8 / 100) := by
  have hrate : IEEE.taxRate = 5764607523034235 / 72057594037927936 := toDouble_0_08
  rw [double_scenario_sent, double_scenario_totals, toDouble_1_5984000000000016,
    toDouble_1_5984, hrate]
  refine ⟨List.cons_ne_nil _ _, ?_, rfl, rfl, ?_, ?_, ?_⟩
  · obtain ⟨rest, hrun⟩ := double_processPayment_posts doubleScenarioState true
      (.ok serverAnswer) (.ok [widget]) (List.cons_ne_nil _ _)
    rw [hrun]
    rfl
  · show (449909602774313 : ℚ) / 281474976710656 ≠ 7198553644389001 / 4503599627370496
    norm_num
  · show (449909602774313 : ℚ) / 281474976710656
      ≠ 5623870034678907 / 281474976710656 * (5764607523034235 / 72057594037927936)
    norm_num
  · show (449909602774313 : ℚ) / 281474976710656
      ≠ 5623870034678907 / 281474976710656 * (8 / 100)
    norm_num

/-- C18 (amended): for every non-empty cart, the `tax_amount` that
`processPayment` posts is `total - subtotal` of `calculateTotals`, evaluated in
JavaScript's double arithmetic. It matches the rate-based
`calculateTotals().taxAmount` only to within floating-point rounding: for the
cart holding the single line price 9.99, quantity 2 the posted value exceeds
`taxAmount` by `7 * 2^-52`. -/
theorem C18_tax_amount_is_difference (s : POSState) (socket : Bool)
    (post : Except HttpError SaleResponse) (products : Except HttpError (List Product))
    (h : s.cart ≠ []) :
    (∃ (body : SaleData) (rest : List Effect),
        (IEEE.processPayment s socket post products).2
            = Effect.httpPost "/api/sales" body :: rest
          ∧ body.tax_amount
              = jsSub (IEEE.calculateTotals s).total (IEEE.calculateTotals s).subtotal)
      ∧ (IEEE.saleData doubleScenarioState).tax_amount
          - (IEEE.calculateTotals doubleScenarioState).taxAmount
          = 7 / 4503599627370496 := by
  constructor
  · obtain ⟨rest, hrun⟩ := double_processPayment_posts s socket post products h
    exact ⟨IEEE.saleData s, rest, hrun, rfl⟩
  · rw [double_scenario_sent, double_scenario_totals]
    show (449909602774313 : ℚ) / 281474976710656 - 7198553644389001 / 4503599627370496 = _
    norm_num

theorem C18_tax_amount_is_difference_witness :
    doubleScenarioState.cart ≠ []
      ∧ (∃ (body : SaleData) (rest : List Effect),
          (IEEE.processPayment doubleScenarioState false (.error { responseError := none })
              (.ok [])).2 = Effect.httpPost "/api/sales" body :: rest
            ∧ body.tax_amount
                = jsSub (IEEE.calculateTotals doubleScenarioState).total
                    (IEEE.calculateTotals doubleScenarioState).subtotal)
      ∧ (IEEE.saleData doubleScenarioState).tax_amount
          - (IEEE.calculateTotals doubleScenarioState).taxAmount
          = 7 / 4503599627370496 :=
  ⟨List.cons_ne_nil _ _,
   C18_tax_amount_is_difference doubleScenarioState false (.error { responseError := none })
     (.ok []) (List.cons_ne_nil _ _)⟩

/-- C19: for every non-empty cart, after a successful `POST /api/sales` an
event is emitted exactly when the socket exists, and the only event emitted is
`sale_completed` carrying `sale_id`, `sale_number` and `total` as returned in
the server response; nothing of it is taken from the cart's own totals. -/
theorem C19_event_from_server_response (s : POSState) (socket : Bool)
    (response : SaleResponse) (products : Except HttpError (List Product))
    (h : s.cart ≠ []) (event : String) (data : SaleCompleted) :
    Effect.emit event data ∈ (processPayment s socket (.ok response) products).2
      ↔ (socket = true ∧ event = "sale_completed"
          ∧ data = { sale_id := response.sale_id, sale_number := response.sale_number,
                     total := response.total }) := by
  rw [processPayment_paid s socket response products h]
  simp only [List.append_assoc, List.mem_append]
  constructor
  · intro hmem
    rcases hmem with hmem | hmem | hmem | hmem | hmem
    · simp at hmem
    · cases socket
      · simp [emitEvent] at hmem
      · simpa [emitEvent] using hmem
    · simp at hmem
    · simp [printReceipt] at hmem
    · rcases loadProducts_effects _ _ _ hmem with hget | htoast
      · cases hget
      · cases htoast
  · rintro ⟨hsocket, hevent, hdata⟩
    right; left
    simp [emitEvent, hsocket, hevent, hdata]

theorem C19_event_from_server_response_witness :
    checkoutState.cart ≠ []
      ∧ (Effect.emit "sale_completed" answerEvent
          ∈ (processPayment checkoutState true (.ok serverAnswer) (.ok [widget])).2
        ↔ ((true : Bool) = true ∧ "sale_completed" = "sale_completed"
            ∧ answerEvent = { sale_id := serverAnswer.sale_id,
                              sale_number := serverAnswer.sale_number,
                              total := serverAnswer.total })) :=
  ⟨List.cons_ne_nil _ _,
   C19_event_from_server_response checkoutState true serverAnswer (.ok [widget])
     (List.cons_ne_nil _ _) "sale_completed" answerEvent⟩

/-! ## Dashboard read model -/

/-- C20 (as stated, refuted): applying `handleNewSale` twice with the same sale
to the empty list leaves two entries for that sale, while applying it once
leaves one; the replayed sale is listed twice. -/
theorem C20_replay_listed_twice :
    handleNewSale (handleNewSale [] answerEvent) answerEvent = [answerEvent, answerEvent]
      ∧ handleNewSale [] answerEvent = [answerEvent]
      ∧ handleNewSale (handleNewSale [] answerEvent) answerEvent
          ≠ handleNewSale [] answerEvent := by
  refine ⟨rfl, rfl, ?_⟩
  intro heq
  have hlen := congrArg List.length heq
  simp [handleNewSale] at hlen

/-- C20 (amended): `handleNewSale` does not de-duplicate. It puts the received
sale in front of the first four previous entries, so applying it twice with
the same sale yields that sale twice followed by the first three previous
entries; the result equals that of applying it once exactly when the previous
list already began with four copies of that sale. -/
theorem C20_handleNewSale_twice (prev : List SaleCompleted) (sale : SaleCompleted) :
    handleNewSale prev sale = sale :: prev.take 4
      ∧ handleNewSale (handleNewSale prev sale) sale = sale :: sale :: prev.take 3
      ∧ (handleNewSale (handleNewSale prev sale) sale = handleNewSale prev sale
          ↔ prev.take 4 = List.replicate 4 sale) := by
  refine ⟨rfl, ?_, ?_⟩
  · rcases prev with _ | ⟨a, _ | ⟨b, _ | ⟨c, _ | ⟨d, rest⟩⟩⟩⟩ <;> simp [handleNewSale]
  · rcases prev with _ | ⟨a, _ | ⟨b, _ | ⟨c, _ | ⟨d, rest⟩⟩⟩⟩
    · simp [handleNewSale]
    · simp [handleNewSale, List.replicate]
    · simp [handleNewSale, List.replicate]
    · simp [handleNewSale, List.replicate]
    · simp only [handleNewSale, List.take, List.replicate, List.cons.injEq, true_and,
        and_true]
      constructor
      · rintro ⟨h1, h2, h3, h4⟩
        subst h1
        subst h2
        subst h3
        subst h4
        exact ⟨rfl, rfl, rfl, rfl⟩
      · rintro ⟨h1, h2, h3, h4⟩
        subst h1
        subst h2
        subst h3
        subst h4
        exact ⟨rfl, rfl, rfl, rfl⟩

/-! ## Products snapshot -/

theorem addToCart_products (s : POSState) (product : Product) :
    (addToCart s product).1.products = s.products := by
  unfold addToCart
  split
  · split <;> rfl
  · rfl

theorem updateCartQuantity_products (s : POSState) (productId : ℕ) (newQuantity : ℤ)
    (r : POSState × List Effect) (h : updateCartQuantity s productId newQuantity = .ok r) :
    r.1.products = s.products := by
  unfold updateCartQuantity at h
  by_cases hq : newQuantity ≤ 0
  · simp only [hq, if_true, Except.ok.injEq] at h
    subst h
    rfl
  · simp only [hq, if_false] at h
    cases hfind : s.products.find? (fun p => decide (p.id = productId)) with
    | none => simp [hfind] at h
    | some product =>
      rw [hfind] at h
      by_cases hstock : newQuantity > product.stock_quantity
      · simp only [hstock, if_true, Except.ok.injEq] at h
        subst h
        rfl
      · simp only [hstock, if_false, Except.ok.injEq] at h
        subst h
        rfl

/-- C21: no cart operation mutates a product: after `addToCart`,
`updateCartQuantity`, `removeFromCart` or `clearCart`, accepted, rejected or
failed, the products snapshot is the same list of the same products, so every
product's price and stock_quantity are unchanged. -/
theorem C21_products_untouched (s : POSState) (op : CartOp) :
    (applyOp s op).products = s.products
      ∧ (applyOp s op).products.map (fun p => (p.id, p.price, p.stock_quantity))
          = s.products.map (fun p => (p.id, p.price, p.stock_quantity)) := by
  have hmain : (applyOp s op).products = s.products := by
    cases op with
    | add product => exact addToCart_products s product
    | update productId newQuantity =>
      simp only [applyOp]
      cases hrun : updateCartQuantity s productId newQuantity with
      | error e => rfl
      | ok r => exact updateCartQuantity_products s productId newQuantity r hrun
    | remove productId => rfl
    | clear => rfl
  exact ⟨hmain, by rw [hmain]⟩

/-! ## addToCart against updateCartQuantity -/

theorem findLine_of_nodup (cart : List CartItem) (productId : ℕ) (line : CartItem)
    (hnodup : (cart.map (fun item => item.product_id)).Nodup)
    (hline : line ∈ cart) (hid : line.product_id = productId) :
    findLine cart productId = some line := by
  cases hfound : findLine cart productId with
  | none =>
    simp only [findLine, List.find?_eq_none, decide_eq_true_eq] at hfound
    exact absurd hid (hfound line hline)
  | some found =>
    have hmem := findLine_mem cart productId found hfound
    have hfid := findLine_id cart productId found hfound
    have heq : found = line :=
      List.inj_on_of_nodup_map hnodup hmem hline (hfid.trans hid.symm)
    rw [heq]

/-- C23: in a cart whose product ids are unique (as in every reachable cart)
and which holds a line for product `p` with quantity `q >= 1`, `p` being the
entry `products.find` returns for that id, `updateCartQuantity(p.id, q + 1)`
returns exactly what `addToCart(p)` returns, state and toast alike: both
reject, leaving the state unchanged, exactly when `q >= p.stock_quantity`, and
otherwise both give the line quantity `q + 1` and total `(q + 1) * price`. -/
theorem C23_add_equals_update (s : POSState) (p : Product) (line : CartItem)
    (hnodup : (s.cart.map (fun item => item.product_id)).Nodup)
    (hline : line ∈ s.cart) (hid : line.product_id = p.id) (hq : 1 ≤ line.quantity)
    (hsnap : s.products.find? (fun x => decide (x.id = p.id)) = some p) :
    updateCartQuantity s p.id (line.quantity + 1) = .ok (addToCart s p)
      ∧ (p.stock_quantity ≤ line.quantity →
          addToCart s p = (s, [Effect.toastError "Insufficient stock"]))
      ∧ (line.quantity < p.stock_quantity →
          (addToCart s p).2 = []
            ∧ findLine (addToCart s p).1.cart p.id
                = some { line with quantity := line.quantity + 1,
                                   total := ((line.quantity + 1 : ℤ) : ℚ) * line.price }) := by
  have hfind : s.cart.find? (fun item => decide (item.product_id = p.id)) = some line :=
    findLine_of_nodup s.cart p.id line hnodup hline hid
  have hpos : ¬ line.quantity + 1 ≤ 0 := by omega
  have hsame : ∀ item ∈ s.cart, item.product_id = p.id → item = line := by
    intro item hitem hitemid
    exact List.inj_on_of_nodup_map hnodup hitem hline (hitemid.trans hid.symm)
  refine ⟨?_, ?_, ?_⟩
  · by_cases hfull : p.stock_quantity ≤ line.quantity
    · have hgt : line.quantity + 1 > p.stock_quantity := by omega
      have hge : line.quantity ≥ p.stock_quantity := hfull
      simp [updateCartQuantity, addToCart, hpos, hsnap, hfind, hgt, hge]
    · have hgt : ¬ line.quantity + 1 > p.stock_quantity := by omega
      have hge : ¬ line.quantity ≥ p.stock_quantity := hfull
      simp only [updateCartQuantity, addToCart, hpos, hsnap, hfind, hgt, hge, if_false]
      congr 3
      apply List.map_congr_left
      intro item hitem
      by_cases hitemid : item.product_id = p.id
      · have := hsame item hitem hitemid
        subst this
        simp [hitemid]
      · simp [hitemid]
  · intro hfull
    have hge : line.quantity ≥ p.stock_quantity := hfull
    simp [addToCart, hfind, hge]
  · intro hroom
    have hge : ¬ line.quantity ≥ p.stock_quantity := by omega
    have hrun : addToCart s p
        = ({ s with cart := s.cart.map (fun item =>
              if item.product_id = p.id then
                { item with quantity := item.quantity + 1,
                            total := ((item.quantity + 1 : ℤ) : ℚ) * item.price }
              else item) }, []) := by
      simp only [addToCart, hfind, hge, if_false]
    rw [hrun]
    refine ⟨rfl, ?_⟩
    show findLine (s.cart.map _) p.id = _
    rw [findLine_map, findLine_of_nodup s.cart p.id line hnodup hline hid]
    · simp [hid]
    · intro item
      by_cases hitemid : item.product_id = p.id <;> simp [hitemid]

theorem C23_add_equals_update_witness :
    (stockStateOne.cart.map (fun item => item.product_id)).Nodup
      ∧ freshLine widget ∈ stockStateOne.cart
      ∧ (freshLine widget).product_id = widget.id
      ∧ 1 ≤ (freshLine widget).quantity
      ∧ stockStateOne.products.find? (fun x => decide (x.id = widget.id)) = some widget
      ∧ updateCartQuantity stockStateOne widget.id ((freshLine widget).quantity + 1)
          = .ok (addToCart stockStateOne widget) :=
  ⟨by decide, by rw [stockStateOne_cart]; exact List.mem_singleton.mpr rfl, rfl, by decide,
   rfl,
   (C23_add_equals_update stockStateOne widget (freshLine widget) (by decide)
      (by rw [stockStateOne_cart]; exact List.mem_singleton.mpr rfl) rfl (by decide) rfl).1⟩

/-! ## Stock lookup of updateCartQuantity -/

theorem updateCartQuantity_ok_of_find (s : POSState) (productId : ℕ) (newQuantity : ℤ)
    (product : Product)
    (hfind : s.products.find? (fun p => decide (p.id = productId)) = some product) :
    ∃ r : POSState × List Effect, updateCartQuantity s productId newQuantity = .ok r := by
  by_cases hq : newQuantity ≤ 0
  · exact ⟨(removeFromCart s productId, []), by simp [updateCartQuantity, hq]⟩
  · by_cases hstock : newQuantity > product.stock_quantity
    · exact ⟨(s, [Effect.toastError "Insufficient stock"]),
        by simp [updateCartQuantity, hq, hfind, hstock]⟩
    · exact ⟨({ s with cart := s.cart.map (fun item =>
            if item.product_id = productId then
              { item with quantity := newQuantity,
                          total := (newQuantity : ℚ) * item.price }
            else item) }, []),
        by simp only [updateCartQuantity, hq, hfind, hstock, if_false]⟩

/-- C24: `updateCartQuantity` returns normally when `newQuantity <= 0`,
whatever the snapshot holds, and when `productId` is the id of a product of the
snapshot; for `newQuantity > 0` and a `productId` no product of the snapshot
carries, it throws a `TypeError` and the component state, hence the cart, is
the one before. -/
theorem C24_stock_lookup (s : POSState) (productId : ℕ) (newQuantity : ℤ) :
    (newQuantity ≤ 0 →
        ∃ r : POSState × List Effect, updateCartQuantity s productId newQuantity = .ok r)
      ∧ ((∃ p ∈ s.products, p.id = productId) →
        ∃ r : POSState × List Effect, updateCartQuantity s productId newQuantity = .ok r)
      ∧ (0 < newQuantity → (∀ p ∈ s.products, p.id ≠ productId) →
        (∃ msg : String,
            updateCartQuantity s productId newQuantity = .error (JSError.typeError msg))
          ∧ applyOp s (.update productId newQuantity) = s) := by
  refine ⟨?_, ?_, ?_⟩
  · intro hq
    exact ⟨(removeFromCart s productId, []), by simp [updateCartQuantity, hq]⟩
  · rintro ⟨p, hp, hpid⟩
    cases hfind : s.products.find? (fun p => decide (p.id = productId)) with
    | none =>
      simp only [List.find?_eq_none, decide_eq_true_eq] at hfind
      exact absurd hpid (hfind p hp)
    | some product => exact updateCartQuantity_ok_of_find s productId newQuantity product hfind
  · intro hq habsent
    have hnot : ¬ newQuantity ≤ 0 := by omega
    have hfind : s.products.find? (fun p => decide (p.id = productId)) = none := by
      simp only [List.find?_eq_none, decide_eq_true_eq]
      exact habsent
    have hrun : updateCartQuantity s productId newQuantity
        = .error (JSError.typeError "Cannot read properties of undefined") := by
      simp [updateCartQuantity, hnot, hfind]
    refine ⟨⟨_, hrun⟩, ?_⟩
    simp only [applyOp, hrun]

theorem C24_stock_lookup_witness :
    ((0 : ℤ) ≤ 0
        ∧ ∃ r : POSState × List Effect, updateCartQuantity scenarioState 1 0 = .ok r)
      ∧ ((∃ p ∈ stockStateOne.products, p.id = 1)
        ∧ ∃ r : POSState × List Effect, updateCartQuantity stockStateOne 1 2 = .ok r)
      ∧ ((0 : ℤ) < 2 ∧ (∀ p ∈ scenarioState.products, p.id ≠ 1)
        ∧ (∃ msg : String,
            updateCartQuantity scenarioState 1 2 = .error (JSError.typeError msg))
        ∧ applyOp scenarioState (.update 1 2) = scenarioState) :=
  ⟨⟨le_refl 0, (C24_stock_lookup scenarioState 1 0).1 (le_refl 0)⟩,
   ⟨⟨widget, List.mem_singleton.mpr rfl, rfl⟩,
    (C24_stock_lookup stockStateOne 1 2).2.1 ⟨widget, List.mem_singleton.mpr rfl, rfl⟩⟩,
   ⟨by decide, (by intro p hp; cases hp),
    (C24_stock_lookup scenarioState 1 2).2.2 (by decide) (by intro p hp; cases hp)⟩⟩

/-! ## Order of the cart lines -/

theorem applyOp_update_ids (s : POSState) (productId : ℕ) (newQuantity : ℤ)
    (hq : 0 < newQuantity) :
    (applyOp s (.update productId newQuantity)).cart.map (fun item => item.product_id)
      = s.cart.map (fun item => item.product_id) := by
  have hnot : ¬ newQuantity ≤ 0 := by omega
  simp only [applyOp, updateCartQuantity, hnot, if_false]
  cases hfind : s.products.find? (fun p => decide (p.id = productId)) with
  | none => rfl
  | some product =>
    by_cases hstock : newQuantity > product.stock_quantity
    · simp [hstock]
    · simp only [hstock, if_false]
      apply map_id_update_lines
      intro item
      by_cases hid : item.product_id = productId <;> simp [hid]

/-- C25: `addToCart` of a product no line carries appends the new line at the
end and leaves the lines before it as they were; `addToCart` of a product
already in the cart and `updateCartQuantity` to a positive quantity keep every
product id at its position; `removeFromCart`, and `updateCartQuantity` to a
quantity of 0 or less, leave a sub-list of the cart, so the remaining lines
keep their relative order. -/
theorem C25_cart_order_stable (s : POSState) :
    (∀ product : Product, (∀ item ∈ s.cart, item.product_id ≠ product.id) →
        (addToCart s product).1.cart = s.cart ++ [freshLine product])
      ∧ (∀ product : Product, (∃ item ∈ s.cart, item.product_id = product.id) →
        (addToCart s product).1.cart.map (fun item => item.product_id)
          = s.cart.map (fun item => item.product_id))
      ∧ (∀ (productId : ℕ) (newQuantity : ℤ), 0 < newQuantity →
        (applyOp s (.update productId newQuantity)).cart.map (fun item => item.product_id)
          = s.cart.map (fun item => item.product_id))
      ∧ (∀ (productId : ℕ) (newQuantity : ℤ), newQuantity ≤ 0 →
        List.Sublist (applyOp s (.update productId newQuantity)).cart s.cart)
      ∧ (∀ productId : ℕ, List.Sublist (removeFromCart s productId).cart s.cart) := by
  refine ⟨?_, ?_, applyOp_update_ids s, ?_, ?_⟩
  · intro product habsent
    simp [addToCart, find?_none_of_absent s.cart product.id habsent, freshLine]
  · rintro product ⟨line, hline, hid⟩
    unfold addToCart
    cases hfind : s.cart.find? (fun item => decide (item.product_id = product.id)) with
    | none =>
      simp only [List.find?_eq_none, decide_eq_true_eq] at hfind
      exact absurd hid (hfind line hline)
    | some existing =>
      by_cases hge : existing.quantity ≥ product.stock_quantity
      · simp [hge]
      · simp only [hge, if_false]
        apply map_id_update_lines
        intro item
        by_cases hitem : item.product_id = product.id <;> simp [hitem]
  · intro productId newQuantity hq
    simp only [applyOp, updateCartQuantity, hq, if_true, removeFromCart]
    exact List.filter_sublist s.cart
  · intro productId
    exact List.filter_sublist s.cart

theorem C25_cart_order_stable_witness :
    ((∀ item ∈ stockStateOne.cart, item.product_id ≠ soldOut.id)
        ∧ (addToCart stockStateOne soldOut).1.cart = stockStateOne.cart ++ [freshLine soldOut])
      ∧ ((∃ item ∈ stockStateOne.cart, item.product_id = widget.id)
        ∧ (addToCart stockStateOne widget).1.cart.map (fun item => item.product_id)
            = stockStateOne.cart.map (fun item => item.product_id))
      ∧ ((0 : ℤ) < 2
        ∧ (applyOp stockStateOne (.update 1 2)).cart.map (fun item => item.product_id)
            = stockStateOne.cart.map (fun item => item.product_id))
      ∧ ((0 : ℤ) ≤ 0
        ∧ List.Sublist (applyOp stockStateOne (.update 1 0)).cart stockStateOne.cart) :=
  ⟨⟨by decide, (C25_cart_order_stable stockStateOne).1 soldOut (by decide)⟩,
   ⟨⟨freshLine widget, List.mem_singleton.mpr rfl, rfl⟩,
    (C25_cart_order_stable stockStateOne).2.1 widget
      ⟨freshLine widget, List.mem_singleton.mpr rfl, rfl⟩⟩,
   ⟨by decide, (C25_cart_order_stable stockStateOne).2.2.1 1 2 (by decide)⟩,
   ⟨le_refl 0, (C25_cart_order_stable stockStateOne).2.2.2.1 1 0 (le_refl 0)⟩⟩

/-! ## Recent sales of the dashboard -/

theorem realTimeSalesAfter_eq (received : List SaleCompleted) :
    realTimeSalesAfter received = received.reverse.take 5 := by
  induction received using List.reverseRecOn with
  | nil => rfl
  | append_singleton earlier sale ih =>
    unfold realTimeSalesAfter at ih ⊢
    rw [List.foldl_append, ih]
    simp [handleNewSale, List.take_take]

/-- C28: after any sequence of `handleNewSale` calls starting from the empty
list, `realTimeSales` holds at most 5 entries, its first entry is the sale
received last, and the list is exactly the five (or fewer) most recently
received sales, newest first. -/
theorem C28_recent_sales (received : List SaleCompleted) :
    (realTimeSalesAfter received).length ≤ 5
      ∧ (realTimeSalesAfter received).head? = received.getLast?
      ∧ realTimeSalesAfter received = received.reverse.take 5 := by
  rw [realTimeSalesAfter_eq]
  refine ⟨?_, ?_, rfl⟩
  · rw [List.length_take]
    exact Nat.min_le_left 5 _
  · rw [List.head?_take]
    simp

/-! ## Product search -/

theorem includes_empty (text : String) : includes text "" = true := by
  simp [includes]

theorem filteredProducts_keeps (toLowerCase : String → String) (s : POSState)
    (product : Product) :
    (includes (toLowerCase product.name) (toLowerCase s.searchTerm)
        || (match product.barcode with
            | some barcode => includes barcode s.searchTerm
            | none => false)) = true
      ↔ (includes (toLowerCase product.name) (toLowerCase s.searchTerm) = true
          ∨ ∃ barcode : String, product.barcode = some barcode
              ∧ includes barcode s.searchTerm = true) := by
  cases hb : product.barcode with
  | none => simp
  | some barcode => simp

/-- C26: `filteredProducts` is a sub-list of `products` (same order) that holds
exactly the products whose lower-cased name contains the lower-cased
`searchTerm` or whose barcode is present and contains `searchTerm`, and whose
category equals `selectedCategory` unless that is empty; each such product
occurs as often as in `products`; with an empty `searchTerm` and no selected
category it equals `products`. -/
theorem C26_filteredProducts (toLowerCase : String → String) (s : POSState) :
    List.Sublist (filteredProducts toLowerCase s) s.products
      ∧ (∀ product : Product, product ∈ filteredProducts toLowerCase s ↔
          product ∈ s.products
            ∧ (includes (toLowerCase product.name) (toLowerCase s.searchTerm) = true
                ∨ ∃ barcode : String, product.barcode = some barcode
                    ∧ includes barcode s.searchTerm = true)
            ∧ (s.selectedCategory = "" ∨ product.category = s.selectedCategory))
      ∧ (∀ product : Product,
          (includes (toLowerCase product.name) (toLowerCase s.searchTerm) = true
              ∨ ∃ barcode : String, product.barcode = some barcode
                  ∧ includes barcode s.searchTerm = true) →
          (s.selectedCategory = "" ∨ product.category = s.selectedCategory) →
          (filteredProducts toLowerCase s).count product = s.products.count product)
      ∧ (toLowerCase "" = "" → s.searchTerm = "" → s.selectedCategory = "" →
          filteredProducts toLowerCase s = s.products) := by
  refine ⟨List.filter_sublist s.products, ?_, ?_, ?_⟩
  · intro product
    simp only [filteredProducts, List.mem_filter, Bool.and_eq_true,
      filteredProducts_keeps toLowerCase s product, Bool.or_eq_true, decide_eq_true_eq]
  · intro product hsearch hcategory
    unfold filteredProducts
    apply List.count_filter
    simp only [Bool.and_eq_true, filteredProducts_keeps toLowerCase s product,
      Bool.or_eq_true, decide_eq_true_eq]
    exact ⟨hsearch, hcategory⟩
  · intro hlower hterm hcategory
    unfold filteredProducts
    rw [List.filter_eq_self]
    intro product _
    simp [hterm, hcategory, hlower, includes_empty]

theorem C26_filteredProducts_witness :
    asciiLower "" = "" ∧ stockState.searchTerm = "" ∧ stockState.selectedCategory = ""
      ∧ filteredProducts asciiLower stockState = stockState.products :=
  ⟨rfl, rfl, rfl, (C26_filteredProducts asciiLower stockState).2.2.2 rfl rfl rfl⟩

/-! ## Route guard -/

/-- C27 (as stated, refuted): while the auth context is loading,
`ProtectedRoute` with no user renders the loading spinner and does not
redirect to /login, and a cashier on a route that requires 'admin' is not
redirected to /dashboard either. -/
theorem C27_loading_shows_spinner :
    ProtectedRoute true none none = Rendered.loadingSpinner
      ∧ ProtectedRoute true none none ≠ Rendered.navigate "/login"
      ∧ ProtectedRoute true (some cashier) (some "admin") = Rendered.loadingSpinner
      ∧ ProtectedRoute true (some cashier) (some "admin") ≠ Rendered.navigate "/dashboard" := by
  decide

/-- C27 (amended): `ProtectedRoute` renders its children if and only if loading
is false, a user is present, and no `requiredRole` is given (undefined or
empty), or `user.role` equals `requiredRole`, or `user.role` is 'admin'. While
loading is true it renders the loading spinner. Once loading is false, with no
user it redirects to /login, and a user who is not admin and whose role differs
from the given `requiredRole` is redirected to /dashboard. -/
theorem C27_protected_route (loading : Bool) (user : Option User)
    (requiredRole : Option String) :
    (ProtectedRoute loading user requiredRole = Rendered.children ↔
        loading = false
          ∧ ∃ u : User, user = some u
              ∧ (roleGiven requiredRole = false ∨ u.role = requiredRole
                  ∨ u.role = some "admin"))
      ∧ (loading = true → ProtectedRoute loading user requiredRole = Rendered.loadingSpinner)
      ∧ (loading = false → user = none →
          ProtectedRoute loading user requiredRole = Rendered.navigate "/login")
      ∧ (loading = false → ∀ u : User, user = some u → roleGiven requiredRole = true →
          u.role ≠ requiredRole → u.role ≠ some "admin" →
          ProtectedRoute loading user requiredRole = Rendered.navigate "/dashboard") := by
  refine ⟨?_, ?_, ?_, ?_⟩
  · cases loading with
    | true => simp [ProtectedRoute]
    | false =>
      cases user with
      | none => simp [ProtectedRoute]
      | some u =>
        by_cases hgiven : roleGiven requiredRole = true
        · by_cases hrole : u.role = requiredRole
          · simp [ProtectedRoute, hgiven, hrole]
          · by_cases hadmin : u.role = some "admin"
            · simp [ProtectedRoute, hgiven, hrole, hadmin]
            · simp [ProtectedRoute, hgiven, hrole, hadmin]
        · simp [ProtectedRoute, hgiven]
  · intro hloading
    simp [ProtectedRoute, hloading]
  · intro hloading huser
    simp [ProtectedRoute, hloading, huser]
  · intro hloading u huser hgiven hrole hadmin
    simp [ProtectedRoute, hloading, huser, hgiven, hrole, hadmin]

theorem C27_protected_route_witness :
    ((true : Bool) = true ∧ ProtectedRoute true none none = Rendered.loadingSpinner)
      ∧ ((false : Bool) = false ∧ (none : Option User) = none
          ∧ ProtectedRoute false none (some "admin") = Rendered.navigate "/login")
      ∧ ((false : Bool) = false ∧ some cashier = some cashier
          ∧ roleGiven (some "admin") = true
          ∧ cashier.role ≠ some "admin"
          ∧ ProtectedRoute false (some cashier) (some "admin")
              = Rendered.navigate "/dashboard")
      ∧ ProtectedRoute false (some cashier) none = Rendered.children :=
  ⟨⟨rfl, (C27_protected_route true none none).2.1 rfl⟩,
   ⟨rfl, rfl, (C27_protected_route false none (some "admin")).2.2.1 rfl rfl⟩,
   ⟨rfl, rfl, by decide, by decide,
    (C27_protected_route false (some cashier) (some "admin")).2.2.2 rfl cashier rfl
      (by decide) (by decide) (by decide)⟩,
   by decide⟩

/-! ## Sale Finalizer: the last unit -/

theorem finalizeSale_last_unit (st : ServerState) (p : ℕ) (request : SaleData) (price : ℚ)
    (hstock : st.stock p = 1)
    (hitems : request.items = [{ product_id := p, quantity := 1, unit_price := price }]) :
    ∃ sale : Sale, (finalizeSale st request).2 = .ok sale
      ∧ (finalizeSale st request).1.stock p = 0
      ∧ (finalizeSale st request).1.sales = st.sales ++ [sale] := by
  have hvalid : (request.items.isEmpty
      || request.items.any (fun line => decide (line.quantity ≤ 0))) = false := by
    simp [hitems]
  have hnone : offendingLine st.stock request.items = none := by
    simp [offendingLine, hitems, hstock]
  have hrun : finalizeSale st request
      = ({ stock := decrementStock st.stock request.items,
           sales := st.sales ++ [saleRecord st request] },
          .ok (saleRecord st request)) := by
    simp [finalizeSale, hvalid, hnone]
  rw [hrun]
  refine ⟨saleRecord st request, rfl, ?_, rfl⟩
  simp [decrementStock, hitems, hstock]

theorem finalizeSale_no_unit (st : ServerState) (p : ℕ) (request : SaleData) (price : ℚ)
    (hstock : st.stock p = 0)
    (hitems : request.items = [{ product_id := p, quantity := 1, unit_price := price }]) :
    finalizeSale st request = (st, .error (FinalizeError.insufficientStock p)) := by
  have hvalid : (request.items.isEmpty
      || request.items.any (fun line => decide (line.quantity ≤ 0))) = false := by
    simp [hitems]
  have hsome : offendingLine st.stock request.items
      = some { product_id := p, quantity := 1, unit_price := price } := by
    simp [offendingLine, hitems, hstock]
  simp [finalizeSale, hvalid, hsome]

theorem finalizeSerialized_pair (st : ServerState) (p : ℕ) (first second : SaleData)
    (priceFirst priceSecond : ℚ) (hstock : st.stock p = 1)
    (hfirst : first.items
      = [{ product_id := p, quantity := 1, unit_price := priceFirst }])
    (hsecond : second.items
      = [{ product_id := p, quantity := 1, unit_price := priceSecond }]) :
    ∃ sale : Sale,
      (finalizeSerialized st [first, second]).2
          = [.ok sale, .error (FinalizeError.insufficientStock p)]
        ∧ (finalizeSerialized st [first, second]).1.stock p = 0
        ∧ (finalizeSerialized st [first, second]).1.sales = st.sales ++ [sale] := by
  obtain ⟨sale, hres, hzero, hsales⟩ :=
    finalizeSale_last_unit st p first priceFirst hstock hfirst
  have hfail := finalizeSale_no_unit (finalizeSale st first).1 p second priceSecond
    hzero hsecond
  refine ⟨sale, ?_, ?_, ?_⟩
  · simp [finalizeSerialized, hres, hfail]
  · simp [finalizeSerialized, hfail, hzero]
  · simp [finalizeSerialized, hfail, hsales]

/-- C22: with the finalizer as the atomic, serialized operation of the
specification, two finalize calls that each request the sole remaining unit of
a product with `stock_quantity = 1` end, in whichever order the store
serializes them, with exactly one commit (stock 0, one Sale appended) and the
other call failing with `InsufficientStock` for that product (stock still 0,
no second Sale). -/
theorem C22_last_unit_sold_once (st : ServerState) (p : ℕ) (a b : SaleData)
    (priceA priceB : ℚ) (hstock : st.stock p = 1)
    (ha : a.items = [{ product_id := p, quantity := 1, unit_price := priceA }])
    (hb : b.items = [{ product_id := p, quantity := 1, unit_price := priceB }]) :
    (∃ sale : Sale,
        (finalizeSerialized st [a, b]).2
            = [.ok sale, .error (FinalizeError.insufficientStock p)]
          ∧ (finalizeSerialized st [a, b]).1.stock p = 0
          ∧ (finalizeSerialized st [a, b]).1.sales = st.sales ++ [sale])
      ∧ (∃ sale : Sale,
        (finalizeSerialized st [b, a]).2
            = [.ok sale, .error (FinalizeError.insufficientStock p)]
          ∧ (finalizeSerialized st [b, a]).1.stock p = 0
          ∧ (finalizeSerialized st [b, a]).1.sales = st.sales ++ [sale]) :=
  ⟨finalizeSerialized_pair st p a b priceA priceB hstock ha hb,
   finalizeSerialized_pair st p b a priceB priceA hstock hb ha⟩

theorem C22_last_unit_sold_once_witness :
    lastUnitStore.stock 1 = 1
      ∧ cashRequest.items = [{ product_id := 1, quantity := 1, unit_price := 999 / 100 }]
      ∧ cardRequest.items = [{ product_id := 1, quantity := 1, unit_price := 999 / 100 }]
      ∧ (∃ sale : Sale,
          (finalizeSerialized lastUnitStore [cashRequest, cardRequest]).2
              = [.ok sale, .error (FinalizeError.insufficientStock 1)]
            ∧ (finalizeSerialized lastUnitStore [cashRequest, cardRequest]).1.stock 1 = 0
            ∧ (finalizeSerialized lastUnitStore [cashRequest, cardRequest]).1.sales
                = lastUnitStore.sales ++ [sale])
      ∧ (∃ sale : Sale,
          (finalizeSerialized lastUnitStore [cardRequest, cashRequest]).2
              = [.ok sale, .error (FinalizeError.insufficientStock 1)]
            ∧ (finalizeSerialized lastUnitStore [cardRequest, cashRequest]).1.stock 1 = 0
            ∧ (finalizeSerialized lastUnitStore [cardRequest, cashRequest]).1.sales
                = lastUnitStore.sales ++ [sale]) :=
  ⟨rfl, rfl, rfl,
   C22_last_unit_sold_once lastUnitStore 1 cashRequest cardRequest (999 / 100) (999 / 100)
     rfl rfl rfl⟩

/-! ## Exact and double handlers side by side -/

theorem addToCart_agree (s : POSState) (product : Product) :
    (IEEE.addToCart s product).2 = (addToCart s product).2
      ∧ withoutTotals (IEEE.addToCart s product).1.cart
          = withoutTotals (addToCart s product).1.cart := by
  unfold IEEE.addToCart addToCart
  cases hfind : s.cart.find? (fun item => decide (item.product_id = product.id)) with
  | none => exact ⟨rfl, rfl⟩
  | some existing =>
    by_cases hge : existing.quantity ≥ product.stock_quantity
    · simp [hge]
    · simp only [hge, if_false, withoutTotals, List.map_map, true_and]
      apply List.map_congr_left
      intro item _
      by_cases hid : item.product_id = product.id <;> simp [hid]

theorem updateCartQuantity_agree (s : POSState) (productId : ℕ) (newQuantity : ℤ) :
    (IEEE.updateCartQuantity s productId newQuantity).map
        (fun r => (withoutTotals r.1.cart, r.2))
      = (updateCartQuantity s productId newQuantity).map
        (fun r => (withoutTotals r.1.cart, r.2)) := by
  unfold IEEE.updateCartQuantity updateCartQuantity
  by_cases hq : newQuantity ≤ 0
  · simp [hq]
  · simp only [hq, if_false]
    cases hfind : s.products.find? (fun p => decide (p.id = productId)) with
    | none => rfl
    | some product =>
      by_cases hstock : newQuantity > product.stock_quantity
      · simp [hstock]
      · simp only [hstock, if_false, Except.map, withoutTotals, List.map_map]
        congr 2
        apply List.map_congr_left
        intro item _
        by_cases hid : item.product_id = productId <;> simp [hid]

end POS
